import Mathlib

/-!
# Verification of the Trennkost core (`trennkost/` package)

Shallow embedding of the deterministic food-combination engine:
`trennkost/models.py`, `trennkost/ontology.py`, `trennkost/engine.py`,
`trennkost/normalizer.py`, `trennkost/formatter.py`, `trennkost/analyzer.py`.

Modelling conventions:
* Python `str` is `String`; `.lower()` / `.strip()` are re-implemented over
  character lists (`strLower` / `strTrim`) so that everything reduces in the
  kernel.  Python dicts that only ever grow are association lists preserving
  first-insertion key order (matching CPython dict semantics); Python sets are
  duplicate-free lists (only membership, size and sorted iteration are used by
  the source, all of which agree with this representation).
* Floats only ever carry the constants 0.0 / 0.6 / 0.7 / 1.0 (confidence
  values, never computed with); they are embedded as `ℚ`.
* The append-only unknown-items side log (`Ontology._log_unknown`) is pure
  I/O whose failure is swallowed by the source; it does not influence any
  returned value and is dropped from the embedding.
-/

/-! ## String and list helpers (Python `in`, `sorted`, `", ".join`, …) -/

/-- Lexicographic `≤` on characters by code point (as Python compares). -/
def charLe (a b : Char) : Bool := a.val ≤ b.val

/-- Lexicographic `≤` on character lists. -/
def chainLe : List Char → List Char → Bool
  | [], _ => true
  | _ :: _, [] => false
  | a :: as, b :: bs => if a = b then chainLe as bs else charLe a b

/-- Python string `<=` (code-point lexicographic). -/
def strLe (a b : String) : Bool := chainLe a.data b.data

/-- Insert into a sorted list of strings. -/
def insOne (x : String) : List String → List String
  | [] => [x]
  | y :: ys => if strLe x y then x :: y :: ys else y :: insOne x ys

/-- Python `sorted` on a list of strings (insertion sort). -/
def insSort : List String → List String
  | [] => []
  | x :: xs => insOne x (insSort xs)

/-- `needle` is a prefix of `hay` (on character lists). -/
def listIsPref : List Char → List Char → Bool
  | [], _ => true
  | _ :: _, [] => false
  | a :: as, b :: bs => a = b && listIsPref as bs

/-- `needle` occurs as a contiguous sublist of `hay`. -/
def listSub (n : List Char) : List Char → Bool
  | [] => listIsPref n []
  | c :: rest => listIsPref n (c :: rest) || listSub n rest

/-- Python `needle in hay` on strings. -/
def strIn (needle hay : String) : Bool := listSub needle.data hay.data

/-- Python `s.startswith(pre)`. -/
def strStarts (s pre : String) : Bool := listIsPref pre.data s.data

/-- Python `s.lower()` (ASCII case folding; the data uses no upper-case umlauts). -/
def strLower (s : String) : String := ⟨s.data.map Char.toLower⟩

/-- Python `s.strip()`. -/
def strTrim (s : String) : String :=
  ⟨((s.data.dropWhile Char.isWhitespace).reverse.dropWhile Char.isWhitespace).reverse⟩

/-- Python `sep.join(l)`. -/
def joinSep (sep : String) : List String → String
  | [] => ""
  | [a] => a
  | a :: rest => a ++ sep ++ joinSep sep rest

/-- Python `", ".join(l)`. -/
def joinComma : List String → String := joinSep ", "

/-- Deduplicate preserving first occurrence (a Python `set` built by union). -/
def dedupStr (l : List String) : List String :=
  l.foldl (fun acc x => if x ∈ acc then acc else acc ++ [x]) []

/-- Truthiness of Python `Optional[str]` (`None` and `""` are falsy). -/
def optStrTruthy : Option String → Bool
  | none => false
  | some s => s ≠ ""

/-! ## Data model (`trennkost/models.py`) -/

/-- `FoodGroup` enum. -/
inductive FoodGroup
  | OBST | TROCKENOBST | NEUTRAL | KH | HUELSENFRUECHTE
  | PROTEIN | MILCH | FETT | UNKNOWN
deriving DecidableEq, Repr

/-- The string value of a `FoodGroup` member. -/
def FoodGroup.value : FoodGroup → String
  | .OBST => "OBST"
  | .TROCKENOBST => "TROCKENOBST"
  | .NEUTRAL => "NEUTRAL"
  | .KH => "KH"
  | .HUELSENFRUECHTE => "HUELSENFRUECHTE"
  | .PROTEIN => "PROTEIN"
  | .MILCH => "MILCH"
  | .FETT => "FETT"
  | .UNKNOWN => "UNKNOWN"

/-- Python `FoodGroup(s)` as a partial constructor. -/
def FoodGroup.fromString (s : String) : Option FoodGroup :=
  if s = "OBST" then some .OBST
  else if s = "TROCKENOBST" then some .TROCKENOBST
  else if s = "NEUTRAL" then some .NEUTRAL
  else if s = "KH" then some .KH
  else if s = "HUELSENFRUECHTE" then some .HUELSENFRUECHTE
  else if s = "PROTEIN" then some .PROTEIN
  else if s = "MILCH" then some .MILCH
  else if s = "FETT" then some .FETT
  else if s = "UNKNOWN" then some .UNKNOWN
  else none

/-- `FoodSubgroup` enum. -/
inductive FoodSubgroup
  | FRISCH | BEEREN | TROCKEN
  | STAERKEARMES_GEMUESE | SALAT | KRAEUTER | SPROSSEN | BLATTGRUEN
  | ZWIEBEL_LAUCH | KREUZBLUETLER
  | GETREIDE | PSEUDOGETREIDE | STAERKEHALTIGES_GEMUESE
  | HUELSE | FLEISCH | FISCH | EIER | MILCHPRODUKT
  | OEL | NUSS_SAMEN | TIERISCHES_FETT
deriving DecidableEq, Repr

/-- The string value of a `FoodSubgroup` member. -/
def FoodSubgroup.value : FoodSubgroup → String
  | .FRISCH => "FRISCH"
  | .BEEREN => "BEEREN"
  | .TROCKEN => "TROCKEN"
  | .STAERKEARMES_GEMUESE => "STAERKEARMES_GEMUESE"
  | .SALAT => "SALAT"
  | .KRAEUTER => "KRAEUTER"
  | .SPROSSEN => "SPROSSEN"
  | .BLATTGRUEN => "BLATTGRUEN"
  | .ZWIEBEL_LAUCH => "ZWIEBEL_LAUCH"
  | .KREUZBLUETLER => "KREUZBLUETLER"
  | .GETREIDE => "GETREIDE"
  | .PSEUDOGETREIDE => "PSEUDOGETREIDE"
  | .STAERKEHALTIGES_GEMUESE => "STAERKEHALTIGES_GEMUESE"
  | .HUELSE => "HUELSE"
  | .FLEISCH => "FLEISCH"
  | .FISCH => "FISCH"
  | .EIER => "EIER"
  | .MILCHPRODUKT => "MILCHPRODUKT"
  | .OEL => "OEL"
  | .NUSS_SAMEN => "NUSS_SAMEN"
  | .TIERISCHES_FETT => "TIERISCHES_FETT"

/-- Python `FoodSubgroup(s)` as a partial constructor. -/
def FoodSubgroup.fromString (s : String) : Option FoodSubgroup :=
  if s = "FRISCH" then some .FRISCH
  else if s = "BEEREN" then some .BEEREN
  else if s = "TROCKEN" then some .TROCKEN
  else if s = "STAERKEARMES_GEMUESE" then some .STAERKEARMES_GEMUESE
  else if s = "SALAT" then some .SALAT
  else if s = "KRAEUTER" then some .KRAEUTER
  else if s = "SPROSSEN" then some .SPROSSEN
  else if s = "BLATTGRUEN" then some .BLATTGRUEN
  else if s = "ZWIEBEL_LAUCH" then some .ZWIEBEL_LAUCH
  else if s = "KREUZBLUETLER" then some .KREUZBLUETLER
  else if s = "GETREIDE" then some .GETREIDE
  else if s = "PSEUDOGETREIDE" then some .PSEUDOGETREIDE
  else if s = "STAERKEHALTIGES_GEMUESE" then some .STAERKEHALTIGES_GEMUESE
  else if s = "HUELSE" then some .HUELSE
  else if s = "FLEISCH" then some .FLEISCH
  else if s = "FISCH" then some .FISCH
  else if s = "EIER" then some .EIER
  else if s = "MILCHPRODUKT" then some .MILCHPRODUKT
  else if s = "OEL" then some .OEL
  else if s = "NUSS_SAMEN" then some .NUSS_SAMEN
  else if s = "TIERISCHES_FETT" then some .TIERISCHES_FETT
  else none

/-- `Verdict` enum. -/
inductive Verdict
  | OK | NOT_OK | CONDITIONAL | UNKNOWN
deriving DecidableEq, Repr

/-- Python `Verdict(s)` as a partial constructor (raises on other strings). -/
def Verdict.fromString (s : String) : Option Verdict :=
  if s = "OK" then some .OK
  else if s = "NOT_OK" then some .NOT_OK
  else if s = "CONDITIONAL" then some .CONDITIONAL
  else if s = "UNKNOWN" then some .UNKNOWN
  else none

/-- `Severity` enum. -/
inductive Severity
  | CRITICAL | WARNING | INFO
deriving DecidableEq, Repr

/-- Python `Severity(s)` as a partial constructor (raises on other strings). -/
def Severity.fromString (s : String) : Option Severity :=
  if s = "CRITICAL" then some .CRITICAL
  else if s = "WARNING" then some .WARNING
  else if s = "INFO" then some .INFO
  else none

/-- `FoodItem` model. Confidence carries only 0 / 0.6 / 0.7 / 1. -/
structure FoodItem where
  raw_name : String
  canonical : Option String := none
  group : FoodGroup := .UNKNOWN
  subgroup : Option FoodSubgroup := none
  confidence : ℚ := 1
  assumed : Bool := false
  assumption_reason : Option String := none
deriving DecidableEq, Repr

/-- `DishAnalysis` model. -/
structure DishAnalysis where
  dish_name : String
  items : List FoodItem := []
  unknown_items : List String := []
  assumed_items : List FoodItem := []
deriving DecidableEq, Repr

/-- `RuleProblem` model. -/
structure RuleProblem where
  rule_id : String
  description : String
  severity : Severity
  affected_items : List String
  affected_groups : List String
  source_ref : String
  explanation : String
deriving DecidableEq, Repr

/-- `RequiredQuestion` model. -/
structure RequiredQuestion where
  question : String
  reason : String
  affects_items : List String
deriving DecidableEq, Repr

/-- The engine's `debug` dictionary (fixed shape in `TrennkostEngine.evaluate`). -/
structure DebugInfo where
  rules_checked : Nat
  rules_triggered : Nat
  unknown_items : List String
  assumed_items : List String
  group_set : List String
deriving DecidableEq, Repr

/-- `TrennkostResult` model. -/
structure TrennkostResult where
  dish_name : String
  verdict : Verdict
  summary : String
  problems : List RuleProblem := []
  required_questions : List RequiredQuestion := []
  ok_combinations : List String := []
  groups_found : List (String × List String) := []
  debug : Option DebugInfo := none
deriving DecidableEq, Repr

/-- `RuleCondition` model.  `except_subgroups` is stored pre-parsed: the
source keeps the raw strings and applies `FoodSubgroup(s)` inside
`_check_rule`, which can only differ (by raising) on tables whose subgroup
names are invalid — tables rejected by the strict load modelled below. -/
structure RuleCondition where
  pair : Option (String × String) := none
  group_present : Option String := none
  has_unknown : Option Bool := none
  has_assumed : Option Bool := none
  except_subgroups : Option (List FoodSubgroup) := none
deriving DecidableEq, Repr

/-- `RuleDefinition` model. -/
structure RuleDefinition where
  rule_id : String
  description : String
  condition : RuleCondition
  verdict : Verdict
  severity : Severity
  source_ref : String
  explanation : String
  exception_note : Option String := none
deriving DecidableEq, Repr

/-- `OntologyEntry` model. -/
structure OntologyEntry where
  canonical : String
  synonyms : List String := []
  group : FoodGroup
  subgroup : Option FoodSubgroup := none
  ambiguity_flag : Bool := false
  ambiguity_note : Option String := none
  notes : Option String := none
deriving DecidableEq, Repr

/-- A compound-dish record from `compounds.json`. -/
structure Compound where
  base_items : List String := []
  optional_items : List String := []
  needs_clarification : Option String := none
deriving DecidableEq, Repr

/-! ## Ontology (`trennkost/ontology.py`) -/

/-- The in-memory `Ontology`: entry list, synonym index (a dict keyed by
lower-cased name, in insertion order), compound table. -/
structure Ontology where
  entries : List OntologyEntry := []
  synonym_index : List (String × OntologyEntry) := []
  compounds : List (String × Compound) := []
deriving DecidableEq, Repr

/-- Dict lookup in the synonym index. -/
def idxGet (idx : List (String × OntologyEntry)) (k : String) : Option OntologyEntry :=
  (idx.find? (fun p => p.1 = k)).map (·.2)

/-- Dict insertion: overwrite in place, else append (CPython dict update). -/
def idxPut (idx : List (String × OntologyEntry)) (k : String) (e : OntologyEntry) :
    List (String × OntologyEntry) :=
  match idx with
  | [] => [(k, e)]
  | (k', e') :: rest => if k' = k then (k, e) :: rest else (k', e') :: idxPut rest k e

/-- `Ontology.lookup`: exact, then longest-synonym-substring (≥ 3 chars),
then raw-name-inside-synonym (≥ 3 chars). -/
def ontLookup (ont : Ontology) (raw : String) : Option OntologyEntry :=
  let key := strLower (strTrim raw)
  match idxGet ont.synonym_index key with
  | some e => some e
  | none =>
    let best := ont.synonym_index.foldl
      (fun (acc : Option (OntologyEntry × Nat)) p =>
        let bestLen := match acc with | some (_, n) => n | none => 0
        if strIn p.1 key = true ∧ p.1.length > bestLen then some (p.2, p.1.length) else acc)
      none
    let fallback :=
      if key.length ≥ 3 then (ont.synonym_index.find? (fun p => strIn key p.1)).map (·.2)
      else none
    match best with
    | some (e, n) => if n ≥ 3 then some e else fallback
    | none => fallback

/-- `Ontology.lookup_to_food_item` (the unknown-item log write is dropped). -/
def lookupToFoodItem (ont : Ontology) (raw : String) (assumed : Bool := false)
    (assumption_reason : Option String := none) : FoodItem :=
  match ontLookup ont raw with
  | some e =>
      { raw_name := raw, canonical := some e.canonical, group := e.group,
        subgroup := e.subgroup, confidence := if e.ambiguity_flag then 7/10 else 1,
        assumed := assumed, assumption_reason := assumption_reason }
  | none =>
      { raw_name := raw, canonical := none, group := .UNKNOWN, subgroup := none,
        confidence := 0, assumed := assumed, assumption_reason := assumption_reason }

/-- `Ontology.get_compound`: exact key first, then case-insensitive scan. -/
def getCompound (ont : Ontology) (dish_name : String) : Option Compound :=
  let key := strTrim dish_name
  match (ont.compounds.find? (fun p => p.1 = key)).map (·.2) with
  | some c => some c
  | none => (ont.compounds.find? (fun p => strLower p.1 = strLower key)).map (·.2)

/-- `Ontology.get_ambiguous_entries`. -/
def getAmbiguousEntries (ont : Ontology) (items : List FoodItem) :
    List (FoodItem × String) :=
  items.filterMap (fun it =>
    match ontLookup ont it.raw_name with
    | some e =>
      match e.ambiguity_note with
      | some n => if e.ambiguity_flag = true ∧ n ≠ "" then some (it, n) else none
      | none => none
    | none => none)

/-! ## Rule engine (`trennkost/engine.py`) -/

/-- `SMOOTHIE_SAFE_SUBGROUPS`. -/
def SMOOTHIE_SAFE_SUBGROUPS : List FoodSubgroup := [.BLATTGRUEN, .KRAEUTER]

/-- The engine: rule list and priority order, as loaded from `rules.json`. -/
structure TrennkostEngine where
  rules : List RuleDefinition := []
  rule_priority : List String := []
deriving DecidableEq, Repr

/-- `TrennkostEngine._get_rule`. -/
def getRule (e : TrennkostEngine) (rule_id : String) : Option RuleDefinition :=
  e.rules.find? (fun r => r.rule_id = rule_id)

/-- The label under which an item appears in `groups_found`
(`raw` or `raw → canonical`; empty canonical is falsy in Python). -/
def itemLabel (it : FoodItem) : String :=
  match it.canonical with
  | some c => if c ≠ "" ∧ c ≠ it.raw_name then it.raw_name ++ " → " ++ c else it.raw_name
  | none => it.raw_name

/-- Append a label under a group key (defaultdict of lists, insertion order). -/
def gfInsert (m : List (String × List String)) (k v : String) :
    List (String × List String) :=
  match m with
  | [] => [(k, [v])]
  | (k', vs) :: rest => if k' = k then (k, vs ++ [v]) :: rest else (k', vs) :: gfInsert rest k v

/-- `groups_found` built from confirmed + assumed items. -/
def groupsFound (all_items : List FoodItem) : List (String × List String) :=
  all_items.foldl (fun m it => gfInsert m it.group.value (itemLabel it)) []

/-- Dict `.get(g, [])` on `groups_found`. -/
def gfGet (m : List (String × List String)) (k : String) : List String :=
  ((m.find? (fun p => p.1 = k)).map (·.2)).getD []

/-- One step of the `subgroups_found` set construction. -/
def sgStep (g : String) (acc : List FoodSubgroup) (it : FoodItem) : List FoodSubgroup :=
  match it.subgroup with
  | some s => if it.group.value = g ∧ s ∉ acc then acc ++ [s] else acc
  | none => acc

/-- `subgroups_found[g]`: the distinct subgroups of items of group-value `g`. -/
def subgroupsFound (all_items : List FoodItem) (g : String) : List FoodSubgroup :=
  all_items.foldl (sgStep g) []

/-- `tuple(sorted([g1, g2]))`. -/
def sortedPair (g1 g2 : String) : String × String :=
  if strLe g1 g2 then (g1, g2) else (g2, g1)

/-- What `_check_rule` reports back in its `detail` dict. -/
inductive Detail
  | pairD (g1 g2 : String)
  | groupD (g : String)
  | unknownD
  | assumedD
deriving DecidableEq, Repr

/-- Tail of `_check_rule`'s cross-group pair branch when no (truthy)
exception-subgroup list applies: the hard-coded R013 suppression (R013 is
skipped whenever the NEUTRAL subgroups are all smoothie-safe, because R012
handles that case), else the pair fires. -/
def checkPairPlain (rule : RuleDefinition) (g1 g2 : String)
    (subgroups_found : String → List FoodSubgroup) : Option Detail :=
  if rule.rule_id = "R013" then
    if subgroups_found "NEUTRAL" ≠ [] ∧
        ∀ s ∈ subgroups_found "NEUTRAL", s ∈ SMOOTHIE_SAFE_SUBGROUPS then none
    else some (.pairD g1 g2)
  else some (.pairD g1 g2)

/-- The exception-subgroup branch of `_check_rule` (R012: fires only when
the NEUTRAL subgroup set is nonempty and contained in the allowed set); an
empty `except_subgroups` list is falsy and falls through. -/
def checkPairExc (rule : RuleDefinition) (g1 g2 : String)
    (allowed : List FoodSubgroup)
    (subgroups_found : String → List FoodSubgroup) : Option Detail :=
  if allowed ≠ [] then
    if subgroups_found "NEUTRAL" ≠ [] ∧
        ∀ s ∈ subgroups_found "NEUTRAL", s ∈ allowed then some (.pairD g1 g2)
    else none
  else checkPairPlain rule g1 g2 subgroups_found

/-- The pair branch of `_check_rule`: same-group needs ≥ 2 items of the
group, cross-group needs both groups present and the pair unclaimed. -/
def checkPairRule (rule : RuleDefinition) (g1 g2 : String)
    (group_set : List String) (subgroups_found : String → List FoodSubgroup)
    (groups_found : List (String × List String))
    (triggered_pairs : List (String × String)) : Option Detail :=
  if g1 = g2 then
    if g1 ∈ group_set ∧ (gfGet groups_found g1).length ≥ 2 ∧
        sortedPair g1 g2 ∉ triggered_pairs then
      some (.pairD g1 g2)
    else none
  else if g1 ∉ group_set ∨ g2 ∉ group_set then none
  else if sortedPair g1 g2 ∈ triggered_pairs then none
  else
    match rule.condition.except_subgroups with
    | some allowed => checkPairExc rule g1 g2 allowed subgroups_found
    | none => checkPairPlain rule g1 g2 subgroups_found

/-- The non-pair branches of `_check_rule` (single-group presence with
Python truthiness on the group string, then unknown/assumed existence). -/
def checkOther (cond : RuleCondition) (group_set : List String)
    (has_unknown has_assumed : Bool) : Option Detail :=
  match cond.group_present with
  | some g =>
    if g ≠ "" then (if g ∈ group_set then some (.groupD g) else none)
    else
      match cond.has_unknown with
      | some b => if b = has_unknown then some .unknownD else none
      | none =>
        match cond.has_assumed with
        | some b => if b = has_assumed then some .assumedD else none
        | none => none
  | none =>
    match cond.has_unknown with
    | some b => if b = has_unknown then some .unknownD else none
    | none =>
      match cond.has_assumed with
      | some b => if b = has_assumed then some .assumedD else none
      | none => none

/-- `TrennkostEngine._check_rule`: `none` = not fired. -/
def checkRule (rule : RuleDefinition) (group_set : List String)
    (subgroups_found : String → List FoodSubgroup)
    (groups_found : List (String × List String))
    (has_unknown has_assumed : Bool)
    (triggered_pairs : List (String × String)) : Option Detail :=
  match rule.condition.pair with
  | some (g1, g2) =>
    checkPairRule rule g1 g2 group_set subgroups_found groups_found triggered_pairs
  | none => checkOther rule.condition group_set has_unknown has_assumed

/-- The mutable state threaded through the priority loop in `evaluate`. -/
structure LoopState where
  problems : List RuleProblem := []
  ok_notes : List String := []
  triggered : List (String × String) := []
deriving DecidableEq, Repr

/-- `triggered_pairs.add(p)` (set add). -/
def addPair (tp : List (String × String)) (p : String × String) :
    List (String × String) :=
  if p ∈ tp then tp else tp ++ [p]

/-- The body of `evaluate`'s priority loop for one fired rule. -/
def stepRule (groups_found : List (String × List String)) (st : LoopState)
    (rule : RuleDefinition) (d : Detail) : LoopState :=
  if rule.verdict = Verdict.OK then
    { st with
      ok_notes := st.ok_notes ++ [rule.description],
      triggered := match d with
        | .pairD g1 g2 => addPair st.triggered (sortedPair g1 g2)
        | _ => st.triggered }
  else if rule.verdict = Verdict.NOT_OK ∨ rule.verdict = Verdict.CONDITIONAL then
    let affected :=
      match d with
      | .pairD g1 g2 =>
        ([g1, g2],
          (gfGet groups_found g1).map (fun l => l ++ " (" ++ g1 ++ ")") ++
          (gfGet groups_found g2).map (fun l => l ++ " (" ++ g2 ++ ")"))
      | .groupD g => ([g], (gfGet groups_found g).map (fun l => l ++ " (" ++ g ++ ")"))
      | _ => ([], [])
    { st with
      problems := st.problems ++
        [{ rule_id := rule.rule_id, description := rule.description,
           severity := rule.severity, affected_items := affected.2,
           affected_groups := affected.1, source_ref := rule.source_ref,
           explanation := rule.explanation }],
      triggered := match d with
        | .pairD g1 g2 => addPair st.triggered (sortedPair g1 g2)
        | _ => st.triggered }
  else st

/-- One iteration of `evaluate`'s priority loop (rule id `rid`). -/
def stepOne (e : TrennkostEngine) (group_set : List String)
    (subs : String → List FoodSubgroup)
    (gf : List (String × List String)) (hu ha : Bool)
    (st : LoopState) (rid : String) : LoopState :=
  match getRule e rid with
  | none => st
  | some rule =>
    match checkRule rule group_set subs gf hu ha st.triggered with
    | none => st
    | some d => stepRule gf st rule d

/-- The full priority loop over `rule_priority`. -/
def runRules (e : TrennkostEngine) (group_set : List String)
    (subs : String → List FoodSubgroup)
    (gf : List (String × List String)) (hu ha : Bool) : LoopState :=
  e.rule_priority.foldl (stepOne e group_set subs gf hu ha) {}

/-- `item.canonical and item.canonical.lower() == "zucker"`. -/
def isZucker (it : FoodItem) : Bool :=
  match it.canonical with
  | some c => c ≠ "" && strLower c = "zucker"
  | none => false

/-- The fixed H001 health advisory appended by `evaluate`. -/
def zuckerProblems (all_items : List FoodItem) : List RuleProblem :=
  if all_items.filter isZucker = [] then []
  else
    [{ rule_id := "H001",
       description := "Zucker (weißer Industriezucker) sollte vermieden werden",
       severity := .INFO,
       affected_items := (all_items.filter isZucker).map (fun it => it.raw_name ++ " → Zucker"),
       affected_groups := ["KH"],
       source_ref := "modul-1.1,modul-1.2",
       explanation := "Zucker ist zwar Trennkost-konform als Kohlenhydrat, wird aber im Kursmaterial als schädlich beschrieben. Besser: Honig, Ahornsirup oder Kokosblütenzucker verwenden." }]

/-- One step of the R018 grouping of PROTEIN items by subgroup value. -/
def protStep (m : List (String × List String)) (it : FoodItem) :
    List (String × List String) :=
  if it.group = .PROTEIN then
    match it.subgroup with
    | some s => gfInsert m s.value (itemLabel it)
    | none => m
  else m

/-- PROTEIN items grouped by subgroup value (for the R018 check). -/
def proteinSubgroupItems (all_items : List FoodItem) : List (String × List String) :=
  all_items.foldl protStep []

/-- The single R018 problem record (built when the check fires). -/
def r018Problem (all_items : List FoodItem) : RuleProblem :=
  { rule_id := "R018",
    description := "Verschiedene Proteinquellen nicht kombinieren",
    severity := .CRITICAL,
    affected_items := (insSort ((proteinSubgroupItems all_items).map (·.1))).flatMap
      (fun sg => (gfGet (proteinSubgroupItems all_items) sg).map
        (fun l => l ++ " (" ++ sg ++ ")")),
    affected_groups := ["PROTEIN"],
    source_ref := "modul-1.1/page-004,modul-1.1/page-001",
    explanation := "Pro Mahlzeit sollte nur EINE Art von konzentriertem Lebensmittel gewählt werden. Fisch/Fleisch/Eier sind unterschiedliche Proteinquellen und sollten nicht miteinander kombiniert werden. Das Verdauungssystem ist nicht dafür geschaffen, mehr als ein konzentriertes Lebensmittel gleichzeitig zu verdauen." }

/-- The fixed R018 cross-cutting check appended by `evaluate`. -/
def r018Problems (all_items : List FoodItem)
    (subs : String → List FoodSubgroup) : List RuleProblem :=
  if (subs "PROTEIN").length ≥ 2 then [r018Problem all_items] else []

/-- Reason string of the batched unknown-items question. -/
def unknownQReason : String := "Unbekannte Zutaten verhindern eine vollständige Bewertung."

/-- Reason string of the batched assumed-items question. -/
def assumedQReason : String := "Vermutete Zutaten müssen bestätigt werden für eine sichere Bewertung."

/-- Reason string of an ambiguity question. -/
def ambiguousQReason : String := "Mehrdeutige Zutat erfordert Klärung für korrekte Zuordnung."

/-- Reason string of the fat-quantity question. -/
def fatQReason : String := "Die Fettmenge beeinflusst die Bewertung."

/-- Reason string of the compound clarification question. -/
def compoundQReason : String := "Details zum Gericht nötig für vollständige Analyse."

/-- Python `len(analysis.items) > 0 and not all(item.assumed for ...)`. -/
def hasExplicitItems (a : DishAnalysis) : Bool :=
  a.items.length > 0 && !(a.items.all (·.assumed))

/-- The batched unknown-items question of `_build_questions`. -/
def unknownQuestionOf (a : DishAnalysis) : RequiredQuestion :=
  { question := "Folgende Zutaten konnte ich nicht eindeutig zuordnen: " ++
      joinComma a.unknown_items ++ ". Kannst du diese näher beschreiben?",
    reason := unknownQReason, affects_items := a.unknown_items }

/-- Unknown-items block of `_build_questions`. -/
def unknownQuestions (a : DishAnalysis) (hu : Bool) : List RequiredQuestion :=
  if hu then [unknownQuestionOf a] else []

/-- Assumed-items block of `_build_questions`. -/
def assumedQuestions (a : DishAnalysis) (ha : Bool) : List RequiredQuestion :=
  if ha then
    [{ question := "Ich vermute folgende zusätzliche Zutaten: " ++
         joinComma (a.assumed_items.map (·.raw_name)) ++ ". Stimmt das?",
       reason := assumedQReason, affects_items := a.assumed_items.map (·.raw_name) }]
  else []

/-- Ambiguity block of `_build_questions`. -/
def ambiguousQuestions (ont : Ontology) (a : DishAnalysis) : List RequiredQuestion :=
  (getAmbiguousEntries ont (a.items ++ a.assumed_items)).map (fun p =>
    { question := "'" ++ p.1.raw_name ++ "' ist mehrdeutig: " ++ p.2,
      reason := ambiguousQReason, affects_items := [p.1.raw_name] })

/-- Fat-quantity block of `_build_questions`. -/
def fatQuestions (gf : List (String × List String)) : List RequiredQuestion :=
  if "FETT" ∈ gf.map (·.1) ∧ gf.length > 1 ∧
      (gf.map (·.1)).filter (fun g => g ≠ "FETT" && g ≠ "NEUTRAL" && g ≠ "UNKNOWN") ≠ [] then
    [{ question := "Wie viel Fett (" ++ joinComma (gfGet gf "FETT") ++
         ") ist enthalten? Kleine Mengen (1-2 TL) sind mit allem OK, größere nur mit Gemüse/Salat.",
       reason := fatQReason, affects_items := gfGet gf "FETT" }]
  else []

/-- Compound-clarification block of `_build_questions` (only when no
explicit ingredient list was supplied). -/
def compoundQuestions (ont : Ontology) (a : DishAnalysis) : List RequiredQuestion :=
  match getCompound ont a.dish_name with
  | some c =>
    if optStrTruthy c.needs_clarification = true ∧ hasExplicitItems a = false then
      [{ question := c.needs_clarification.getD "",
         reason := compoundQReason, affects_items := [a.dish_name] }]
    else []
  | none => []

/-- `TrennkostEngine._build_questions` (the five appends, in source order). -/
def buildQuestions (ont : Ontology) (a : DishAnalysis)
    (gf : List (String × List String)) (hu ha : Bool) : List RequiredQuestion :=
  unknownQuestions a hu ++ assumedQuestions a ha ++ ambiguousQuestions ont a ++
    fatQuestions gf ++ compoundQuestions ont a

/-- `TrennkostEngine._determine_verdict`. -/
def determineVerdict (problems : List RuleProblem)
    (questions : List RequiredQuestion) (hu : Bool) : Verdict :=
  if ∃ p ∈ problems, strStarts p.rule_id "R0" = true ∧ p.severity = Severity.CRITICAL then
    .NOT_OK
  else if questions ≠ [] ∨ hu = true then .CONDITIONAL
  else if ∃ p ∈ problems, p.severity = Severity.WARNING then .CONDITIONAL
  else .OK

/-- `TrennkostEngine._build_summary`. -/
def buildSummary (dish_name : String) (v : Verdict)
    (problems : List RuleProblem) (questions : List RequiredQuestion) : String :=
  match v with
  | .OK => dish_name ++ ": Kombination ist OK nach Trennkost-Prinzip."
  | .NOT_OK =>
    let critical := problems.filter (fun p => p.severity == Severity.CRITICAL)
    if critical ≠ [] then
      let groups := insSort (dedupStr (critical.flatMap (·.affected_groups)))
      dish_name ++ ": NICHT OK — " ++ joinSep " + " groups ++ " sollten nicht kombiniert werden."
    else dish_name ++ ": NICHT OK nach Trennkost-Prinzip."
  | .CONDITIONAL =>
    if questions ≠ [] then
      dish_name ++ ": Bedingt OK — Rückfragen nötig (" ++ toString questions.length ++ " offene Fragen)."
    else dish_name ++ ": Bedingt OK — hängt von Mengen/Details ab."
  | .UNKNOWN => dish_name ++ ": Kann nicht sicher bewertet werden (unbekannte Zutaten)."

/-- `TrennkostEngine.evaluate`. -/
def evaluate (e : TrennkostEngine) (ont : Ontology) (a : DishAnalysis) : TrennkostResult :=
  let all_items := a.items ++ a.assumed_items
  let gf := groupsFound all_items
  let subs := subgroupsFound all_items
  let group_set := gf.map (·.1)
  let hu : Bool := !a.unknown_items.isEmpty
  let ha : Bool := !a.assumed_items.isEmpty
  let st := runRules e group_set subs gf hu ha
  let problems := st.problems ++ zuckerProblems all_items ++ r018Problems all_items subs
  let questions := buildQuestions ont a gf hu ha
  let verdict := determineVerdict problems questions hu
  { dish_name := a.dish_name,
    verdict := verdict,
    summary := buildSummary a.dish_name verdict problems questions,
    problems := problems,
    required_questions := questions,
    ok_combinations := st.ok_notes,
    groups_found := gf,
    debug := some
      { rules_checked := e.rules.length,
        rules_triggered := problems.length + st.ok_notes.length,
        unknown_items := a.unknown_items,
        assumed_items := a.assumed_items.map (·.raw_name),
        group_set := insSort group_set } }

/-! ## Startup loading (`TrennkostEngine._load_rules`, `Ontology._load_*`)

A configuration table at startup is either absent, unreadable (the stdlib
`json.load` / file read raises), or parsed into records. -/

/-- The three states a configuration table can be in at startup. -/
inductive TableSource (α : Type)
  | missing
  | malformed (msg : String)
  | parsed (data : α)

/-- One record of `rules.json` before enum validation. -/
structure RawRule where
  rule_id : String
  description : String
  condition : RuleCondition
  verdict : String
  severity : String
  source_ref : String
  explanation : String
  exception_note : Option String := none

/-- The parsed top-level shape of `rules.json`. -/
structure RulesFile where
  rules : List RawRule := []
  rule_priority : Option (List String) := none

/-- Validation of one rule record: `Verdict(...)` / `Severity(...)` raise
`ValueError` on anything outside the closed enums. -/
def parseRawRule (r : RawRule) : Except String RuleDefinition :=
  match Verdict.fromString r.verdict with
  | none => .error ("ValueError: invalid Verdict " ++ r.verdict)
  | some v =>
    match Severity.fromString r.severity with
    | none => .error ("ValueError: invalid Severity " ++ r.severity)
    | some s =>
      .ok { rule_id := r.rule_id, description := r.description,
            condition := r.condition, verdict := v, severity := s,
            source_ref := r.source_ref, explanation := r.explanation,
            exception_note := r.exception_note }

/-- The rule-parsing loop of `_load_rules`: stops at the first record whose
verdict/severity is outside the closed enums (the `ValueError` propagates
out of `__init__`). -/
def parseRules : List RawRule → Except String (List RuleDefinition)
  | [] => .ok []
  | r :: rest => do
    let rule ← parseRawRule r
    let rules ← parseRules rest
    pure (rule :: rules)

/-- `TrennkostEngine._load_rules` (as run by `__init__`): a MISSING rules
file is only logged — the engine keeps its empty rule list and serves;
unreadable JSON or an invalid verdict/severity raises out of `__init__`. -/
def loadRules : TableSource RulesFile → Except String TrennkostEngine
  | .missing => .ok {}
  | .malformed msg => .error msg
  | .parsed d => do
    let rules ← parseRules d.rules
    .ok { rules := rules, rule_priority := d.rule_priority.getD (rules.map (·.rule_id)) }

/-- One data row of `ontology.csv` (csv.DictReader yields strings). -/
structure OntologyRow where
  canonical : String := ""
  synonyms : String := ""
  group : String := ""
  subgroup : String := ""
  ambiguity_flag : String := ""
  ambiguity_note : String := ""
  notes : String := ""

/-- Python `s.split(",")`. -/
def splitCommaAux : List Char → List Char → List String
  | [], cur => [⟨cur.reverse⟩]
  | c :: rest, cur =>
    if c = ',' then (⟨cur.reverse⟩ : String) :: splitCommaAux rest []
    else splitCommaAux rest (c :: cur)

/-- Python `s.split(",")`. -/
def splitComma (s : String) : List String := splitCommaAux s.data []

/-- The per-row body of `Ontology._load_ontology`: comment rows are skipped,
an invalid group value silently degrades to `UNKNOWN`, an invalid subgroup
to `None`; the row is appended to the entry list and indexed under its
lower-cased canonical name and synonyms. -/
def loadOntologyRow (st : List OntologyEntry × List (String × OntologyEntry))
    (row : OntologyRow) : List OntologyEntry × List (String × OntologyEntry) :=
  if strStarts row.canonical "#" then st
  else
    let synonyms := ((splitComma row.synonyms).map strTrim).filter (fun s => s ≠ "")
    let group := (FoodGroup.fromString (strTrim row.group)).getD .UNKNOWN
    let subgroup :=
      if strTrim row.subgroup = "" then none
      else
        match FoodSubgroup.fromString (strTrim row.subgroup) with
        | some sg => some sg
        | none => none
    let entry : OntologyEntry :=
      { canonical := strTrim row.canonical, synonyms := synonyms, group := group,
        subgroup := subgroup,
        ambiguity_flag := strLower row.ambiguity_flag = "true",
        ambiguity_note := if strTrim row.ambiguity_note = "" then none else some (strTrim row.ambiguity_note),
        notes := if strTrim row.notes = "" then none else some (strTrim row.notes) }
    let idx := idxPut st.2 (strLower entry.canonical) entry
    let idx := synonyms.foldl (fun i syn => idxPut i (strLower syn) entry) idx
    (st.1 ++ [entry], idx)

/-- `Ontology._load_ontology`: a missing CSV is only logged (empty ontology);
an unreadable file raises; rows themselves never raise. -/
def loadOntologyRows : TableSource (List OntologyRow) →
    Except String (List OntologyEntry × List (String × OntologyEntry))
  | .missing => .ok ([], [])
  | .malformed msg => .error msg
  | .parsed rows => .ok (rows.foldl loadOntologyRow ([], []))

/-- `Ontology._load_compounds`: a missing JSON is silently skipped;
unreadable JSON raises. -/
def loadCompounds : TableSource (List (String × Compound)) →
    Except String (List (String × Compound))
  | .missing => .ok []
  | .malformed msg => .error msg
  | .parsed cs => .ok cs

/-- `Ontology.__init__`: `_load_ontology` then `_load_compounds`. -/
def buildOntology (ontSrc : TableSource (List OntologyRow))
    (compSrc : TableSource (List (String × Compound))) : Except String Ontology := do
  let (entries, idx) ← loadOntologyRows ontSrc
  let cs ← loadCompounds compSrc
  .ok { entries := entries, synonym_index := idx, compounds := cs }

/-! ## Normalizer (`trennkost/normalizer.py`)

The injected callback `llm_fn(prompt, user_msg) -> str` is embedded already
composed with `json.loads`: the embedded callback returns either the parsed
JSON value of its output, or `.error` covering both a raising callback and
syntactically unparseable output.  Every JSON value is the parse of some
string, so this loses no behaviours.  What the `try/except` in
`_llm_extract_items` / `_llm_classify_items` does NOT protect — consuming
the parsed structure inside `normalize_dish` itself — is embedded with
explicit Python exception semantics (`PyErr`). -/

/-- Parsed JSON values (numbers are never used numerically by the source). -/
inductive Json
  | null
  | bool (b : Bool)
  | num (n : Int)
  | str (s : String)
  | arr (elems : List Json)
  | obj (fields : List (String × Json))

/-- Python exceptions that can escape `normalize_dish`. -/
inductive PyErr
  | typeError (msg : String)
  | keyError (msg : String)
  | attributeError (msg : String)
deriving DecidableEq, Repr

deriving instance DecidableEq for Except

/-- An injected LLM callback, composed with `json.loads` (see above). -/
def LlmFn : Type := String → String → Except String Json

/-- Python truthiness of a JSON value. -/
def jsonTruthy : Json → Bool
  | .null => false
  | .bool b => b
  | .num n => n ≠ 0
  | .str s => s ≠ ""
  | .arr l => !l.isEmpty
  | .obj f => !f.isEmpty

/-- Key lookup in a parsed JSON object (parsed dicts have unique keys). -/
def jsonGet (fields : List (String × Json)) (k : String) : Option Json :=
  (fields.find? (fun p => p.1 = k)).map (·.2)

/-- Python `for x in j`: lists yield elements, strings characters, dicts
keys; everything else raises `TypeError`. -/
def pyIterate : Json → Except PyErr (List Json)
  | .arr l => .ok l
  | .str s => .ok (s.data.map (fun c => .str ⟨[c]⟩))
  | .obj f => .ok (f.map (fun p => .str p.1))
  | _ => .error (.typeError "argument is not iterable")

/-- Python `c[k]` for a string key `k`. -/
def pyIndex (c : Json) (k : String) : Except PyErr Json :=
  match c with
  | .obj f =>
    match jsonGet f k with
    | some v => .ok v
    | none => .error (.keyError k)
  | .str _ => .error (.typeError "string indices must be integers")
  | .arr _ => .error (.typeError "list indices must be integers or slices, not str")
  | _ => .error (.typeError "object is not subscriptable")

/-- Python `v.lower()` on a JSON value. -/
def pyLower : Json → Except PyErr String
  | .str s => .ok (strLower s)
  | _ => .error (.attributeError "lower")

/-- Python `j.get(k, dflt)`: only dicts have `.get`. -/
def pyDictGet (j : Json) (k : String) (dflt : Json) : Except PyErr Json :=
  match j with
  | .obj f => .ok ((jsonGet f k).getD dflt)
  | _ => .error (.attributeError "get")

/-- Dict-comprehension insert (later duplicate keys overwrite the value). -/
def dictPut (m : List (String × Json)) (k : String) (v : Json) : List (String × Json) :=
  match m with
  | [] => [(k, v)]
  | (k', v') :: rest => if k' = k then (k, v) :: rest else (k', v') :: dictPut rest k v

/-- Dict `.get` on the classification map. -/
def dictGet (m : List (String × Json)) (k : String) : Option Json :=
  (m.find? (fun p => p.1 = k)).map (·.2)

/-- `LLM_CLASSIFY_PROMPT` (opaque instruction text handed to the callback). -/
def LLM_CLASSIFY_PROMPT : String :=
  "Du bist ein Lebensmittel-Klassifikator für ein Trennkost-System.\n\nGegeben eine Liste von Lebensmitteln, ordne JEDES einzelne einer Gruppe zu.\n\nGRUPPEN:\n- OBST: Frisches Obst (Apfel, Banane, Beeren, etc.)\n- TROCKENOBST: Trockenfrüchte (Datteln, Feigen, Rosinen)\n- NEUTRAL: Stärkearmes Gemüse, Salat, Kräuter, Sprossen (Brokkoli, Gurke, Tomate, Spinat, Petersilie)\n- KH: Komplexe Kohlenhydrate - Getreide, Pseudogetreide, stärkehaltiges Gemüse (Reis, Pasta, Brot, Kartoffel, Mais, Quinoa)\n- HUELSENFRUECHTE: Hülsenfrüchte (Linsen, Kichererbsen, Bohnen, Tofu, Tempeh)\n- PROTEIN: Tierisches Eiweiß - Fisch, Fleisch, Eier (Lachs, Hähnchen, Steak, Ei)\n- MILCH: Milchprodukte (Käse, Joghurt, Sahne, Milch) ABER NICHT Butter/Ghee (die sind FETT)\n- FETT: Fette und Öle, Nüsse, Samen, Avocado, Butter, Ghee (Olivenöl, Mandeln, Walnüsse)\n- UNKNOWN: Wenn du dir nicht sicher bist\n\nWICHTIG:\n- Antworte NUR als JSON-Array\n- Keine Erklärungen, nur die Zuordnung\n- Wenn ein Item mehrdeutig ist, setze \"ambiguous\": true\n\nBeispiel-Input: [\"Spaghetti\", \"Tomatensauce\", \"Parmesan\", \"Basilikum\"]\nBeispiel-Output:\n[\n  \x7b\"item\": \"Spaghetti\", \"group\": \"KH\", \"canonical\": \"Pasta\"\x7d,\n  \x7b\"item\": \"Tomatensauce\", \"group\": \"NEUTRAL\", \"canonical\": \"Tomate\"\x7d,\n  \x7b\"item\": \"Parmesan\", \"group\": \"MILCH\", \"canonical\": \"Käse\"\x7d,\n  \x7b\"item\": \"Basilikum\", \"group\": \"NEUTRAL\", \"canonical\": \"Basilikum\"\x7d\n]\n"

/-- `LLM_EXTRACT_PROMPT` (opaque instruction text handed to the callback). -/
def LLM_EXTRACT_PROMPT : String :=
  "Du bist ein Lebensmittel-Extraktor. Gegeben ein Gericht oder eine Beschreibung, extrahiere ALLE einzelnen Zutaten.\n\nREGELN:\n- Liste JEDE einzelne Zutat separat auf\n- Zerlege zusammengesetzte Gerichte (z.B. \"Carbonara\" → Pasta, Ei, Speck, Parmesan)\n- Kennzeichne vermutete Zutaten mit \"assumed\": true\n- Wenn Soßen/Teige dabei sind, zerlege deren Bestandteile\n- Sei spezifisch: \"Weizenmehl\" statt nur \"Mehl\"\n\nAntworte NUR als JSON:\n\x7b\n  \"dish_name\": \"Name des Gerichts\",\n  \"items\": [\n    \x7b\"name\": \"Zutat\", \"assumed\": false\x7d,\n    \x7b\"name\": \"Vermutete Zutat\", \"assumed\": true, \"reason\": \"Warum vermutet\"\x7d\n  ]\n\x7d\n\nWICHTIG: Markiere Zutaten die du nur vermutest IMMER mit \"assumed\": true.\nZutaten die klar sichtbar/genannt sind: \"assumed\": false.\n"

/-- `json.dumps(items, ensure_ascii=False)` (shape only; content is opaque
callback input). -/
def jsonDumpsList (l : List String) : String :=
  "[" ++ joinComma (l.map (fun s => "\"" ++ s ++ "\"")) ++ "]"

/-- `_llm_extract_items`: everything inside its `try` — a raising callback,
unparseable output, or a non-dict top level (`.get` raising) — yields `none`. -/
def llmExtractItems (dish_name : String) (f : LlmFn) : Option Json :=
  match f LLM_EXTRACT_PROMPT ("Gericht: " ++ dish_name) with
  | .error _ => none
  | .ok j =>
    match j with
    | .obj fields => some ((jsonGet fields "items").getD (.arr []))
    | _ => none

/-- `_llm_classify_items`: returns the parsed output as-is, `none` on a
raising callback or unparseable output. -/
def llmClassifyItems (items : List String) (f : LlmFn) : Option Json :=
  match f LLM_CLASSIFY_PROMPT (jsonDumpsList items) with
  | .error _ => none
  | .ok j => some j

/-- The classification-map dict comprehension in `normalize_dish`
(`\x7bc["item"].lower(): c for c in classified\x7d`) — run OUTSIDE any
`try`, so a structurally invalid element raises. -/
def buildClassMap (classified : Json) : Except PyErr (List (String × Json)) := do
  let cs ← pyIterate classified
  cs.foldlM (fun m c => do
    let item ← pyIndex c "item"
    let key ← pyLower item
    pure (dictPut m key c)) []

/-- The in-place update `normalize_dish` applies to one still-UNKNOWN item
from the classification map (lines 168-175). -/
def classifyUpdate (m : List (String × Json)) (it : FoodItem) : FoodItem :=
  if it.group = .UNKNOWN then
    match dictGet m (strLower it.raw_name) with
    | some cls =>
      if jsonTruthy cls then
        match cls with
        | .obj fields =>
          match (jsonGet fields "group").getD (.str "UNKNOWN") with
          | .str gs =>
            if gs ≠ "UNKNOWN" ∧ (FoodGroup.fromString gs).isSome then
              { it with
                group := (FoodGroup.fromString gs).getD .UNKNOWN,
                canonical := some (match jsonGet fields "canonical" with
                  | some (.str c) => c
                  | some _ => it.raw_name
                  | none => it.raw_name),
                confidence := 3/5 }
            else it
          | _ => it
        | _ => it
      else it
    | none => it
  else it

/-- One extracted-ingredient step of `normalize_dish`'s step 3 (lines
144-156): `ext.get(...)` raises on non-dict elements, and the name must be a
string for `lookup_to_food_item` (which calls `.strip()` on it). -/
def extractStep (ont : Ontology) (acc : List FoodItem × List FoodItem)
    (ext : Json) : Except PyErr (List FoodItem × List FoodItem) := do
  let nameJ ← pyDictGet ext "name" (.str "")
  let assumedJ ← pyDictGet ext "assumed" (.bool false)
  let reasonJ ← pyDictGet ext "reason" .null
  let name ← match nameJ with
    | .str s => Except.ok s
    | _ => Except.error (.attributeError "strip")
  let is_assumed := jsonTruthy assumedJ
  let reason : Option String := match reasonJ with
    | .str s => some s
    | _ => none
  let fi := lookupToFoodItem ont name is_assumed reason
  if is_assumed then pure (acc.1, acc.2 ++ [fi]) else pure (acc.1 ++ [fi], acc.2)

/-- `normalize_dish`.  The `unknown_items` appends of steps 2 and 3 are
dead: line 178 rebuilds `final_unknowns` from scratch from the (possibly
LLM-classified) item lists, which is what the returned `DishAnalysis`
carries. -/
def normalizeDish (ont : Ontology) (dish_name : String)
    (raw_items : Option (List String) := none)
    (llm_fn : Option LlmFn := none) : Except PyErr DishAnalysis := do
  let compound := getCompound ont dish_name
  let (items0, assumed0) :=
    match compound, raw_items with
    | some c, none =>
      (c.base_items.map (fun n => lookupToFoodItem ont n false none),
       c.optional_items.map (fun n =>
         lookupToFoodItem ont n true (some ("Typische optionale Zutat in " ++ dish_name))))
    | _, _ => ([], [])
  let items1 :=
    match raw_items with
    | some l => items0 ++ l.map (fun raw => lookupToFoodItem ont (strTrim raw))
    | none => items0
  let (items2, assumed2) ←
    if items1.isEmpty ∧ assumed0.isEmpty then
      match llm_fn with
      | some f =>
        match llmExtractItems dish_name f with
        | some extracted =>
          if jsonTruthy extracted then do
            let exts ← pyIterate extracted
            exts.foldlM (extractStep ont) (items1, assumed0)
          else pure (items1, assumed0)
        | none => pure (items1, assumed0)
      | none => pure (items1, assumed0)
    else pure (items1, assumed0)
  let unknowns_to_classify :=
    items2.filter (fun it => it.group == FoodGroup.UNKNOWN) ++
    assumed2.filter (fun it => it.group == FoodGroup.UNKNOWN)
  let (items3, assumed3) ←
    if unknowns_to_classify ≠ [] then
      match llm_fn with
      | some f =>
        match llmClassifyItems (unknowns_to_classify.map (·.raw_name)) f with
        | some classified =>
          if jsonTruthy classified then do
            let m ← buildClassMap classified
            pure (items2.map (classifyUpdate m), assumed2.map (classifyUpdate m))
          else pure (items2, assumed2)
        | none => pure (items2, assumed2)
      | none => pure (items2, assumed2)
    else pure (items2, assumed2)
  let final_unknowns :=
    (items3.filter (fun it => it.group == FoodGroup.UNKNOWN)).map (·.raw_name) ++
    (assumed3.filter (fun it => it.group == FoodGroup.UNKNOWN)).map (·.raw_name)
  pure { dish_name := dish_name, items := items3,
         unknown_items := final_unknowns, assumed_items := assumed3 }

/-! ## Formatter (`trennkost/formatter.py`) -/

/-- `_GROUP_DISPLAY.get(g, g)`. -/
def groupDisplay (g : String) : String :=
  if g = "KH" then "Kohlenhydrate"
  else if g = "PROTEIN" then "Protein"
  else if g = "MILCH" then "Milchprodukte"
  else if g = "HUELSENFRUECHTE" then "Hülsenfrüchte"
  else if g = "OBST" then "Obst"
  else if g = "FETT" then "Fette"
  else if g = "TROCKENOBST" then "Trockenobst"
  else g

/-- Everything before the first occurrence of a pattern. -/
def takeUntilSub (pat : List Char) : List Char → List Char
  | [] => []
  | c :: rest => if listIsPref pat (c :: rest) then [] else c :: takeUntilSub pat rest

/-- `i.split(" → ")[0]` — the raw name in front of a `raw → canonical` label. -/
def cleanLabel (s : String) : String := ⟨takeUntilSub " → ".data s.data⟩

/-- The conflicting-group set `_generate_fix_directions` collects from the
problems (minus `NEUTRAL` / `UNKNOWN`). -/
def conflictingGroupsOf (r : TrennkostResult) : List String :=
  (dedupStr (r.problems.flatMap (·.affected_groups))).filter
    (fun g => g ≠ "NEUTRAL" && g ≠ "UNKNOWN")

/-- One fix direction for `keep` (given the sorted conflicting groups). -/
def fixDirection (r : TrennkostResult) (sortedC : List String) (keep : String) : String :=
  let keep_items := gfGet r.groups_found keep
  let keep_items_str := joinComma (keep_items.map cleanLabel)
  let replace_str := joinComma
    ((sortedC.filter (fun g => g ≠ keep && !(gfGet r.groups_found g).isEmpty)).map
      (fun g => joinComma ((gfGet r.groups_found g).map cleanLabel)))
  let forbidden := (sortedC.filter (fun g => g ≠ keep)).map groupDisplay
  "Behalte " ++ groupDisplay keep ++ " (" ++ keep_items_str ++ ") → ersetze " ++
    replace_str ++ " durch stärkearmes Gemüse/Salat. WICHTIG: Kein(e) " ++
    joinComma forbidden ++ " im Alternativgericht!"

/-- `_generate_fix_directions` (identical in `formatter.py` and
`analyzer.py`): empty unless NOT_OK with ≥ 2 conflicting groups; one
direction per conflicting group that has matched items, in sorted order. -/
def generateFixDirections (r : TrennkostResult) : List String :=
  if r.verdict ≠ Verdict.NOT_OK then []
  else
    let conflicting := conflictingGroupsOf r
    if conflicting.length < 2 then []
    else
      (insSort conflicting).filterMap (fun keep =>
        if (gfGet r.groups_found keep).isEmpty then none
        else some (fixDirection r (insSort conflicting) keep))

/-! ## Analyzer (`trennkost/analyzer.py`)

`analyze_text` maps its heuristic regex parser `_parse_text_input` over the
input and runs the body below on each parsed dish; the body (lines 279-340)
is the Trennkost-relevant logic and is embedded as `processDish`. -/

/-- Reason string of the strict-mode assumed-items question. -/
def assumedEscalationQReason : String := "Vermutete Zutaten könnten die Kombination beeinflussen."

/-- The per-dish body of `analyze_text` (normalization, strict-mode
re-evaluation with assumed items stripped, escalation to CONDITIONAL when
the assumed items would flip an OK to NOT_OK). -/
def processDish (e : TrennkostEngine) (ont : Ontology) (mode : String)
    (llm_fn : Option LlmFn) (dish_name : String)
    (raw_items : Option (List String)) : Except PyErr TrennkostResult := do
  let analysis ← normalizeDish ont dish_name raw_items llm_fn
  if mode = "strict" ∧ analysis.assumed_items ≠ [] then
    let strict_analysis : DishAnalysis :=
      { dish_name := analysis.dish_name, items := analysis.items,
        unknown_items := analysis.unknown_items, assumed_items := [] }
    let result := evaluate e ont strict_analysis
    let assumed_names := analysis.assumed_items.map (·.raw_name)
    let assumed_groups := analysis.assumed_items.map
      (fun it => it.raw_name ++ " (" ++ it.group.value ++ ")")
    let result :=
      if assumed_names ≠ [] then
        if result.verdict = Verdict.NOT_OK then result
        else
          { result with
            required_questions := result.required_questions ++
              [{ question := "Typische weitere Zutaten in " ++ dish_name ++ ": " ++
                   joinComma assumed_groups ++
                   ". Sind diese enthalten? Das könnte die Bewertung ändern.",
                 reason := assumedEscalationQReason,
                 affects_items := assumed_names }] }
      else result
    let result :=
      if assumed_names ≠ [] ∧ result.verdict = Verdict.OK then
        let assumption_analysis : DishAnalysis :=
          { dish_name := analysis.dish_name,
            items := analysis.items ++ analysis.assumed_items,
            unknown_items := analysis.unknown_items,
            assumed_items := analysis.assumed_items }
        let assumption_result := evaluate e ont assumption_analysis
        if assumption_result.verdict = Verdict.NOT_OK then
          { result with
            verdict := Verdict.CONDITIONAL,
            summary := dish_name ++ ": Bedingt OK — mit typischen Zusatz-Zutaten wäre es NOT_OK." }
        else result
      else result
    pure result
  else pure (evaluate e ont analysis)

/-! ## Spec-modelled configuration data

`rules.json`, `ontology.csv` and `compounds.json` are startup configuration
consumed by the code above but not present in the source tree; the
definitions below reconstruct the fragments the spec and the engine's test
suite document.  They are used to instantiate the engine for witnesses and
scenario checks. -/

/-- Modelled from the spec: rule R001 of the missing rule table. -/
def specR001 : RuleDefinition :=
  { rule_id := "R001", description := "Kohlenhydrate und Protein nicht kombinieren",
    condition := { pair := some ("KH", "PROTEIN") }, verdict := .NOT_OK,
    severity := .CRITICAL, source_ref := "modul-1.1",
    explanation := "Konzentrierte Kohlenhydrate und konzentriertes Protein nicht in einer Mahlzeit." }

/-- Modelled from the spec: rule R002 of the missing rule table. -/
def specR002 : RuleDefinition :=
  { rule_id := "R002", description := "Kohlenhydrate und Milchprodukte nicht kombinieren",
    condition := { pair := some ("KH", "MILCH") }, verdict := .NOT_OK,
    severity := .CRITICAL, source_ref := "modul-1.1",
    explanation := "Milchprodukte werden sauer verstoffwechselt und passen nicht zu Kohlenhydraten." }

/-- Modelled from the spec: rule R003 of the missing rule table. -/
def specR003 : RuleDefinition :=
  { rule_id := "R003", description := "Hülsenfrüchte und Kohlenhydrate nicht kombinieren",
    condition := { pair := some ("HUELSENFRUECHTE", "KH") }, verdict := .NOT_OK,
    severity := .CRITICAL, source_ref := "modul-1.1",
    explanation := "Hülsenfrüchte sind schwer verdaulich und nicht mit Kohlenhydraten zu kombinieren." }

/-- Modelled from the spec: rule R004 of the missing rule table. -/
def specR004 : RuleDefinition :=
  { rule_id := "R004", description := "Hülsenfrüchte und Protein nicht kombinieren",
    condition := { pair := some ("HUELSENFRUECHTE", "PROTEIN") }, verdict := .NOT_OK,
    severity := .CRITICAL, source_ref := "modul-1.1",
    explanation := "Hülsenfrüchte und tierisches Protein nicht in einer Mahlzeit." }

/-- Modelled from the spec: rule R006 of the missing rule table. -/
def specR006 : RuleDefinition :=
  { rule_id := "R006", description := "Protein und Milchprodukte nicht kombinieren",
    condition := { pair := some ("PROTEIN", "MILCH") }, verdict := .NOT_OK,
    severity := .CRITICAL, source_ref := "modul-1.1",
    explanation := "Zwei konzentrierte Eiweißquellen nicht in einer Mahlzeit." }

/-- Modelled from the spec: rule R007 of the missing rule table. -/
def specR007 : RuleDefinition :=
  { rule_id := "R007", description := "Obst und Kohlenhydrate nicht kombinieren",
    condition := { pair := some ("OBST", "KH") }, verdict := .NOT_OK,
    severity := .CRITICAL, source_ref := "modul-1.1",
    explanation := "Obst verdaut schnell und gärt über Kohlenhydraten." }

/-- Modelled from the spec: rule R008 of the missing rule table. -/
def specR008 : RuleDefinition :=
  { rule_id := "R008", description := "Obst und Protein nicht kombinieren",
    condition := { pair := some ("OBST", "PROTEIN") }, verdict := .NOT_OK,
    severity := .CRITICAL, source_ref := "modul-1.1",
    explanation := "Obst verdaut schnell und gärt über Protein." }

/-- Modelled from the spec: rule R012 of the missing rule table. -/
def specR012 : RuleDefinition :=
  { rule_id := "R012", description := "Obst mit Blattgrün (Grüner Smoothie) ist erlaubt",
    condition := { pair := some ("OBST", "NEUTRAL"),
                   except_subgroups := some [.BLATTGRUEN, .KRAEUTER] },
    verdict := .OK, severity := .INFO, source_ref := "modul-1.2",
    explanation := "Obst mit Blattgrün ist als Grüner Smoothie ausdrücklich empfohlen." }

/-- Modelled from the spec: rule R013 of the missing rule table. -/
def specR013 : RuleDefinition :=
  { rule_id := "R013", description := "Obst und Gemüse nur mit Blattgrün kombinieren",
    condition := { pair := some ("OBST", "NEUTRAL") }, verdict := .CONDITIONAL,
    severity := .WARNING, source_ref := "modul-1.1",
    explanation := "Obst mit stärkearmem Gemüse außerhalb der Smoothie-Ausnahme ist nicht ideal." }

/-- Modelled from the spec: rule R015 of the missing rule table. -/
def specR015 : RuleDefinition :=
  { rule_id := "R015", description := "Mehrere Kohlenhydrat-Quellen sind kombinierbar",
    condition := { pair := some ("KH", "KH") }, verdict := .OK,
    severity := .INFO, source_ref := "modul-1.1",
    explanation := "Verschiedene Kohlenhydrate dürfen gemeinsam gegessen werden." }

/-- Modelled from the spec: the pair rules of the missing `rules.json` as
documented by §4.3/§8 of the spec and `tests/test_engine.py`. -/
def specRules : List RuleDefinition :=
  [specR001, specR002, specR003, specR004, specR006, specR007, specR008,
   specR012, specR013, specR015]

/-- Modelled from the spec: the priority order of the missing `rules.json`
(most critical pair rules first, the smoothie exception R012 ahead of the
general R013 it suppresses). -/
def specPriority : List String :=
  ["R001", "R002", "R003", "R004", "R006", "R007", "R008", "R012", "R013", "R015"]

/-- The engine loaded with the spec-modelled rule table. -/
def specEngine : TrennkostEngine :=
  { rules := specRules, rule_priority := specPriority }

/-- Build an `Ontology` the way `_load_ontology` indexes entries. -/
def ontologyOfEntries (es : List OntologyEntry)
    (cs : List (String × Compound)) : Ontology :=
  { entries := es,
    synonym_index := es.foldl (fun idx e =>
      e.synonyms.foldl (fun i syn => idxPut i (strLower syn) e)
        (idxPut idx (strLower e.canonical) e)) [],
    compounds := cs }

/-- Modelled from the spec: a fragment of the missing `ontology.csv`
covering the items named in the spec's scenarios and the engine tests. -/
def specEntries : List OntologyEntry := [
  { canonical := "Reis", group := .KH, subgroup := some .GETREIDE },
  { canonical := "Kartoffel", group := .KH, subgroup := some .STAERKEHALTIGES_GEMUESE },
  { canonical := "Brot", group := .KH, subgroup := some .GETREIDE },
  { canonical := "Pasta", synonyms := ["Spaghetti", "Penne"], group := .KH, subgroup := some .GETREIDE },
  { canonical := "Hähnchen", synonyms := ["Hühnchen"], group := .PROTEIN, subgroup := some .FLEISCH },
  { canonical := "Rindfleisch", group := .PROTEIN, subgroup := some .FLEISCH },
  { canonical := "Lachs", group := .PROTEIN, subgroup := some .FISCH },
  { canonical := "Ei", group := .PROTEIN, subgroup := some .EIER },
  { canonical := "Käse", synonyms := ["Parmesan"], group := .MILCH, subgroup := some .MILCHPRODUKT },
  { canonical := "Sahne", group := .MILCH, subgroup := some .MILCHPRODUKT },
  { canonical := "Banane", group := .OBST, subgroup := some .FRISCH },
  { canonical := "Apfel", group := .OBST, subgroup := some .FRISCH },
  { canonical := "Spinat", group := .NEUTRAL, subgroup := some .BLATTGRUEN },
  { canonical := "Paprika", group := .NEUTRAL, subgroup := some .STAERKEARMES_GEMUESE },
  { canonical := "Gurke", group := .NEUTRAL, subgroup := some .STAERKEARMES_GEMUESE },
  { canonical := "Salat", group := .NEUTRAL, subgroup := some .SALAT },
  { canonical := "Brokkoli", group := .NEUTRAL, subgroup := some .STAERKEARMES_GEMUESE },
  { canonical := "Tempeh", group := .HUELSENFRUECHTE, subgroup := some .HUELSE },
  { canonical := "Olivenöl", group := .FETT, subgroup := some .OEL }]

/-- Modelled from the spec: a fragment of the missing `compounds.json` —
"Burger" with a clarification prompt (§8 scenario), a pasta dish with a
typical assumed dairy ingredient (used for the strict-mode escalation). -/
def specCompounds : List (String × Compound) := [
  ("Burger",
    { base_items := [], optional_items := ["Rindfleisch"],
      needs_clarification := some "Ist der Burger mit Fleisch oder vegetarisch gemeint?" }),
  ("Pasta Carbonara",
    { base_items := ["Pasta"], optional_items := ["Sahne"] })]

/-- The ontology loaded with the spec-modelled tables. -/
def specOntology : Ontology := ontologyOfEntries specEntries specCompounds

/-- Resolve raw names into a `DishAnalysis` the way the engine tests do. -/
def analysisOf (name : String) (raws : List String) : DishAnalysis :=
  { dish_name := name,
    items := raws.map (fun r => lookupToFoodItem specOntology r),
    unknown_items := raws.filter (fun r => (ontLookup specOntology r).isNone),
    assumed_items := [] }

example : (evaluate specEngine specOntology (analysisOf "Test" ["Reis", "Hähnchen"])).verdict = Verdict.NOT_OK := by decide

example : (evaluate specEngine specOntology (analysisOf "Test" ["Reis", "Hähnchen"])).problems.map (·.rule_id) = ["R001"] := by decide
example : (evaluate specEngine specOntology (analysisOf "Test" ["Brot", "Käse"])).verdict = Verdict.NOT_OK := by decide
example : (evaluate specEngine specOntology (analysisOf "Smoothie" ["Banane", "Spinat"])).verdict = Verdict.OK := by decide
example : (evaluate specEngine specOntology (analysisOf "Test" ["Apfel", "Paprika"])).verdict = Verdict.CONDITIONAL := by decide
example : (evaluate specEngine specOntology (analysisOf "Test" ["Apfel", "Paprika"])).problems.map (·.rule_id) = ["R013"] := by decide
example : (evaluate specEngine specOntology (analysisOf "Test" ["Reis", "Kartoffel"])).verdict = Verdict.OK := by decide
example : (evaluate specEngine specOntology (analysisOf "Salat" ["Gurke", "Paprika", "Brokkoli"])).verdict = Verdict.OK := by decide
example : (evaluate specEngine specOntology (analysisOf "Test" ["Reis", "Brokkoli", "Olivenöl"])).verdict = Verdict.CONDITIONAL := by decide
example : (evaluate specEngine specOntology (analysisOf "Test" ["Ei", "Lachs"])).verdict = Verdict.NOT_OK := by decide
example : (evaluate specEngine specOntology (analysisOf "Test" ["Ei", "Lachs"])).problems.map (·.rule_id) = ["R018"] := by decide
example : (evaluate specEngine specOntology (analysisOf "Test" ["Kartoffel", "Mysterium-Pulver"])).verdict = Verdict.CONDITIONAL := by decide

example : normalizeDish specOntology "Burger" none none =
    Except.ok { dish_name := "Burger", items := [],
                unknown_items := [],
                assumed_items := [lookupToFoodItem specOntology "Rindfleisch" true
                  (some "Typische optionale Zutat in Burger")] } := by decide
example :
    (normalizeDish specOntology "Burger" none none).map
      (fun a => ((evaluate specEngine specOntology a).verdict,
        (evaluate specEngine specOntology a).required_questions.map (·.reason))) =
    Except.ok (Verdict.CONDITIONAL, [assumedQReason, compoundQReason]) := by decide
example :
    (normalizeDish specOntology "Burger" (some ["Tempeh", "Salat", "Gurke"]) none).map
      (fun a => (evaluate specEngine specOntology a).required_questions) =
    Except.ok [] := by decide
example :
    (processDish specEngine specOntology "strict" none "Pasta Carbonara" none).map
      (fun r => (r.verdict, r.summary)) =
    Except.ok (Verdict.CONDITIONAL,
      "Pasta Carbonara: Bedingt OK — mit typischen Zusatz-Zutaten wäre es NOT_OK.") := by decide

example :
    normalizeDish specOntology "Test" (some ["Mysterium-Pulver"])
      (some (fun _ _ => .ok (.arr [.str "x"]))) =
    Except.error (.typeError "string indices must be integers") := by decide

example :
    normalizeDish specOntology "Test" (some ["Mysterium-Pulver"])
      (some (fun _ _ => .error "RuntimeError: boom")) =
    normalizeDish specOntology "Test" (some ["Mysterium-Pulver"]) none := by decide

/-! ## Helper lemmas -/

theorem listIsPref_refl (l : List Char) : listIsPref l l = true := by
  induction l with
  | nil => rfl
  | cons a as ih => simp [listIsPref, ih]

theorem listIsPref_append (n h t : List Char) (hp : listIsPref n h = true) :
    listIsPref n (h ++ t) = true := by
  induction n generalizing h with
  | nil => rfl
  | cons a as ih =>
    cases h with
    | nil => simp [listIsPref] at hp
    | cons b bs =>
      simp only [listIsPref, Bool.and_eq_true, decide_eq_true_eq] at hp
      simp only [List.cons_append, listIsPref, Bool.and_eq_true, decide_eq_true_eq]
      exact ⟨hp.1, ih bs hp.2⟩

theorem listSub_of_isPref (n h : List Char) (hp : listIsPref n h = true) :
    listSub n h = true := by
  cases h with
  | nil =>
    cases n with
    | nil => rfl
    | cons a as => simp [listIsPref] at hp
  | cons c rest => simp [listSub, hp]

theorem listSub_refl (l : List Char) : listSub l l = true :=
  listSub_of_isPref l l (listIsPref_refl l)

theorem listSub_cons (n : List Char) (c : Char) (h : List Char)
    (hs : listSub n h = true) : listSub n (c :: h) = true := by
  simp [listSub, hs]

theorem listSub_append_left (n a h : List Char) (hs : listSub n h = true) :
    listSub n (a ++ h) = true := by
  induction a with
  | nil => exact hs
  | cons c cs ih => exact listSub_cons n c (cs ++ h) ih

theorem listSub_append_right (n h t : List Char) (hs : listSub n h = true) :
    listSub n (h ++ t) = true := by
  induction h with
  | nil =>
    cases n with
    | nil =>
      cases t with
      | nil => rfl
      | cons c cs => simp [listSub, listIsPref]
    | cons a as => simp [listSub, listIsPref] at hs
  | cons c cs ih =>
    simp only [listSub, Bool.or_eq_true] at hs
    rcases hs with hp | hs
    · exact listSub_of_isPref _ _ (by simpa using listIsPref_append n (c :: cs) t hp)
    · exact listSub_cons n c (cs ++ t) (ih hs)

theorem strIn_append_left (n a h : String) (hs : strIn n h = true) :
    strIn n (a ++ h) = true := by
  simpa [strIn, String.data_append] using listSub_append_left n.data a.data h.data hs

theorem strIn_append_right (n h t : String) (hs : strIn n h = true) :
    strIn n (h ++ t) = true := by
  simpa [strIn, String.data_append] using listSub_append_right n.data h.data t.data hs

theorem strIn_refl (s : String) : strIn s s = true := listSub_refl s.data

theorem strIn_joinComma (x : String) (l : List String) (hx : x ∈ l) :
    strIn x (joinComma l) = true := by
  induction l with
  | nil => cases hx
  | cons a rest ih =>
    cases rest with
    | nil =>
      rcases List.mem_singleton.mp hx with rfl
      simpa [joinComma, joinSep] using strIn_refl x
    | cons b bs =>
      rcases List.mem_cons.mp hx with rfl | hx
      · show strIn x (x ++ ", " ++ joinSep ", " (b :: bs)) = true
        exact strIn_append_right _ _ _ (strIn_append_right _ _ _ (strIn_refl x))
      · show strIn x (a ++ ", " ++ joinSep ", " (b :: bs)) = true
        exact strIn_append_left _ _ _ (ih hx)

theorem mem_insOne (x y : String) (l : List String) :
    y ∈ insOne x l ↔ y = x ∨ y ∈ l := by
  induction l with
  | nil => simp [insOne]
  | cons a as ih =>
    simp only [insOne]
    by_cases h : strLe x a = true
    · rw [if_pos h]
      simp [List.mem_cons]
    · rw [if_neg h]
      simp only [List.mem_cons, ih]
      tauto

theorem mem_insSort (y : String) (l : List String) : y ∈ insSort l ↔ y ∈ l := by
  induction l with
  | nil => simp [insSort]
  | cons a as ih => simp [insSort, mem_insOne, ih]

theorem length_insOne (x : String) (l : List String) :
    (insOne x l).length = l.length + 1 := by
  induction l with
  | nil => rfl
  | cons a as ih =>
    by_cases h : strLe x a = true
    · simp [insOne, h]
    · simp [insOne, h, ih]

theorem length_insSort (l : List String) : (insSort l).length = l.length := by
  induction l with
  | nil => rfl
  | cons a as ih => simp [insSort, length_insOne, ih]

theorem gfGet_gfInsert_self (m : List (String × List String)) (k v : String) :
    gfGet (gfInsert m k v) k = gfGet m k ++ [v] := by
  induction m with
  | nil => simp [gfInsert, gfGet, List.find?]
  | cons p rest ih =>
    by_cases h : p.1 = k
    · simp [gfInsert, h, gfGet, List.find?_cons, List.find?]
    · simp only [gfInsert]
      rw [if_neg h]
      simp only [gfGet, List.find?_cons] at *
      have hb : (decide (p.1 = k)) = false := by simp [h]
      simp [hb, ih]

theorem gfGet_gfInsert_other (m : List (String × List String)) (k v k' : String)
    (hk : k' ≠ k) : gfGet (gfInsert m k v) k' = gfGet m k' := by
  induction m with
  | nil => simp [gfInsert, gfGet, List.find?, Ne.symm hk]
  | cons p rest ih =>
    by_cases h : p.1 = k
    · subst h
      simp [gfInsert, gfGet, List.find?_cons, Ne.symm hk]
    · simp only [gfInsert]
      rw [if_neg h]
      by_cases h2 : p.1 = k'
      · simp [gfGet, List.find?_cons, h2]
      · simp only [gfGet, List.find?_cons] at *
        have hb : (decide (p.1 = k')) = false := by simp [h2]
        simp [hb, ih]

theorem keys_gfInsert (m : List (String × List String)) (k v : String) (g : String) :
    g ∈ (gfInsert m k v).map (·.1) ↔ g ∈ m.map (·.1) ∨ g = k := by
  induction m with
  | nil => simp [gfInsert]
  | cons p rest ih =>
    by_cases h : p.1 = k
    · subst h
      simp [gfInsert]
      tauto
    · simp only [gfInsert]
      rw [if_neg h]
      simp [ih]
      tauto

theorem keys_groupsFound_fold (l : List FoodItem) :
    ∀ (m : List (String × List String)) (g : String),
      (g ∈ (l.foldl (fun m it => gfInsert m it.group.value (itemLabel it)) m).map (·.1)) ↔
      (g ∈ m.map (·.1) ∨ ∃ it ∈ l, it.group.value = g) := by
  induction l with
  | nil => intro m g; simp
  | cons it rest ih =>
    intro m g
    simp only [List.foldl_cons]
    rw [ih, keys_gfInsert]
    constructor
    · rintro ((h | h) | h)
      · exact Or.inl h
      · exact Or.inr ⟨it, List.mem_cons_self it rest, h.symm⟩
      · rcases h with ⟨x, hx, hg⟩
        exact Or.inr ⟨x, List.mem_cons_of_mem it hx, hg⟩
    · rintro (h | ⟨x, hx, hg⟩)
      · exact Or.inl (Or.inl h)
      · rcases List.mem_cons.mp hx with rfl | hx
        · exact Or.inl (Or.inr hg.symm)
        · exact Or.inr ⟨x, hx, hg⟩

theorem mem_groupSet (items : List FoodItem) (g : String) :
    (g ∈ (groupsFound items).map (·.1)) ↔ ∃ it ∈ items, it.group.value = g := by
  simpa [groupsFound] using keys_groupsFound_fold items [] g

theorem sgStep_none (g : String) (acc : List FoodSubgroup) (it : FoodItem)
    (h : it.subgroup = none) : sgStep g acc it = acc := by
  simp [sgStep, h]

theorem sgStep_some (g : String) (acc : List FoodSubgroup) (it : FoodItem)
    (s' : FoodSubgroup) (h : it.subgroup = some s') :
    sgStep g acc it = if it.group.value = g ∧ s' ∉ acc then acc ++ [s'] else acc := by
  simp [sgStep, h]

theorem mem_sgStep (g : String) (acc : List FoodSubgroup) (it : FoodItem)
    (s : FoodSubgroup) :
    (s ∈ sgStep g acc it) ↔ (s ∈ acc ∨ (it.group.value = g ∧ it.subgroup = some s)) := by
  match hsub : it.subgroup with
  | none =>
    rw [sgStep_none g acc it hsub]
    simp
  | some s' =>
    rw [sgStep_some g acc it s' hsub]
    by_cases hc : it.group.value = g ∧ s' ∉ acc
    · rw [if_pos hc]
      simp only [List.mem_append, List.mem_singleton, Option.some.injEq]
      constructor
      · rintro (h | rfl)
        · exact Or.inl h
        · exact Or.inr ⟨hc.1, rfl⟩
      · rintro (h | ⟨hg, rfl⟩)
        · exact Or.inl h
        · exact Or.inr rfl
    · rw [if_neg hc]
      constructor
      · exact Or.inl
      · rintro (h | ⟨hg, hss⟩)
        · exact h
        · have hs2 : s' = s := Option.some.inj hss
          subst hs2
          rcases not_and_or.mp hc with hc | hc
          · exact absurd hg hc
          · exact not_not.mp hc

theorem mem_subgroupsFound_fold (l : List FoodItem) (g : String) :
    ∀ (acc : List FoodSubgroup) (s : FoodSubgroup),
      (s ∈ l.foldl (sgStep g) acc) ↔
      (s ∈ acc ∨ ∃ it ∈ l, it.group.value = g ∧ it.subgroup = some s) := by
  induction l with
  | nil => intro acc s; simp
  | cons it rest ih =>
    intro acc s
    simp only [List.foldl_cons]
    rw [ih, mem_sgStep]
    constructor
    · rintro ((h | h) | h)
      · exact Or.inl h
      · exact Or.inr ⟨it, List.mem_cons_self it rest, h⟩
      · rcases h with ⟨x, hx, hg, hs⟩
        exact Or.inr ⟨x, List.mem_cons_of_mem it hx, hg, hs⟩
    · rintro (h | ⟨x, hx, hg, hs⟩)
      · exact Or.inl (Or.inl h)
      · rcases List.mem_cons.mp hx with rfl | hx
        · exact Or.inl (Or.inr ⟨hg, hs⟩)
        · exact Or.inr ⟨x, hx, hg, hs⟩

theorem mem_subgroupsFound (items : List FoodItem) (g : String) (s : FoodSubgroup) :
    (s ∈ subgroupsFound items g) ↔ ∃ it ∈ items, it.group.value = g ∧ it.subgroup = some s := by
  simpa [subgroupsFound] using mem_subgroupsFound_fold items g [] s

theorem subgroupsFound_nil_of_none (items : List FoodItem) (g : String)
    (h : ∀ it ∈ items, it.group.value ≠ g) : subgroupsFound items g = [] := by
  rw [List.eq_nil_iff_forall_not_mem]
  intro s hs
  rcases (mem_subgroupsFound items g s).mp hs with ⟨it, hit, hg, _⟩
  exact h it hit hg

theorem two_mem_length {α : Type} (l : List α) (x y : α)
    (hx : x ∈ l) (hy : y ∈ l) (hxy : x ≠ y) : 2 ≤ l.length := by
  cases l with
  | nil => cases hx
  | cons a rest =>
    cases rest with
    | nil =>
      rcases List.mem_singleton.mp hx with rfl
      rcases List.mem_singleton.mp hy with rfl
      exact absurd rfl hxy
    | cons b bs =>
      simp only [List.length_cons]
      omega

theorem length_filterMap_of_forall_isSome {α β : Type} (f : α → Option β) (l : List α)
    (h : ∀ x ∈ l, (f x).isSome = true) : (l.filterMap f).length = l.length := by
  induction l with
  | nil => rfl
  | cons a as ih =>
    rcases Option.isSome_iff_exists.mp (h a (List.mem_cons_self a as)) with ⟨b, hb⟩
    rw [List.filterMap_cons, hb]
    simp only [List.length_cons]
    rw [ih (fun x hx => h x (List.mem_cons_of_mem a hx))]

/-! ## Projections of `evaluate` -/

theorem evaluate_problems_eq (e : TrennkostEngine) (ont : Ontology) (a : DishAnalysis) :
    (evaluate e ont a).problems =
      (runRules e ((groupsFound (a.items ++ a.assumed_items)).map (·.1))
        (subgroupsFound (a.items ++ a.assumed_items))
        (groupsFound (a.items ++ a.assumed_items))
        (!a.unknown_items.isEmpty) (!a.assumed_items.isEmpty)).problems ++
      zuckerProblems (a.items ++ a.assumed_items) ++
      r018Problems (a.items ++ a.assumed_items) (subgroupsFound (a.items ++ a.assumed_items)) := rfl

theorem evaluate_questions_eq (e : TrennkostEngine) (ont : Ontology) (a : DishAnalysis) :
    (evaluate e ont a).required_questions =
      buildQuestions ont a (groupsFound (a.items ++ a.assumed_items))
        (!a.unknown_items.isEmpty) (!a.assumed_items.isEmpty) := rfl

theorem evaluate_verdict_eq (e : TrennkostEngine) (ont : Ontology) (a : DishAnalysis) :
    (evaluate e ont a).verdict =
      determineVerdict (evaluate e ont a).problems (evaluate e ont a).required_questions
        (!a.unknown_items.isEmpty) := rfl

theorem evaluate_okc_eq (e : TrennkostEngine) (ont : Ontology) (a : DishAnalysis) :
    (evaluate e ont a).ok_combinations =
      (runRules e ((groupsFound (a.items ++ a.assumed_items)).map (·.1))
        (subgroupsFound (a.items ++ a.assumed_items))
        (groupsFound (a.items ++ a.assumed_items))
        (!a.unknown_items.isEmpty) (!a.assumed_items.isEmpty)).ok_notes := rfl

/-! ## Claim theorems -/

/-- **C8.** `TrennkostEngine.evaluate` is a pure function of the engine's
loaded tables, the ontology and the `DishAnalysis`: evaluating equal
analyses yields identical `TrennkostResult`s.  (The source reads no clock,
randomness or mutable state inside `evaluate`; the embedding is accordingly
a total function, which this theorem records.) -/
theorem trennkost_c8 (e : TrennkostEngine) (ont : Ontology) (a₁ a₂ : DishAnalysis)
    (h : a₁ = a₂) : evaluate e ont a₁ = evaluate e ont a₂ := by rw [h]

/-- Witness for C8 at the `["Reis", "Hähnchen"]` fixture. -/
theorem trennkost_c8_witness :
    evaluate specEngine specOntology (analysisOf "Test" ["Reis", "Hähnchen"]) =
    evaluate specEngine specOntology (analysisOf "Test" ["Reis", "Hähnchen"]) :=
  trennkost_c8 specEngine specOntology _ _ rfl

/-- **C6 counterexample.** A MISSING rules table does not fail construction:
`_load_rules` logs and returns, the engine comes up with an empty rule list
(and likewise an empty ontology), and `evaluate` happily serves — returning
OK even for a carbohydrate + protein dish that the full table rejects. -/
theorem trennkost_c6_counterexample :
    loadRules TableSource.missing = Except.ok ({} : TrennkostEngine) ∧
    buildOntology TableSource.missing TableSource.missing = Except.ok ({} : Ontology) ∧
    (evaluate {} {}
      { dish_name := "Test",
        items := [{ raw_name := "Reis", canonical := some "Reis", group := .KH,
                    subgroup := some .GETREIDE },
                  { raw_name := "Hähnchen", canonical := some "Hähnchen", group := .PROTEIN,
                    subgroup := some .FLEISCH }] }).verdict = Verdict.OK := by
  refine ⟨rfl, rfl, ?_⟩
  decide

theorem parseRules_error (l : List RawRule) (r : RawRule) (hr : r ∈ l)
    (he : Verdict.fromString r.verdict = none) :
    ∃ msg, parseRules l = Except.error msg := by
  induction l with
  | nil => cases hr
  | cons a rest ih =>
    rcases List.mem_cons.mp hr with rfl | hr
    · have hp : parseRawRule r = Except.error ("ValueError: invalid Verdict " ++ r.verdict) := by
        simp [parseRawRule, he]
      refine ⟨"ValueError: invalid Verdict " ++ r.verdict, ?_⟩
      show (do
        let rule ← parseRawRule r
        let rules ← parseRules rest
        pure (rule :: rules) : Except String (List RuleDefinition)) = _
      rw [hp]
      rfl
    · match hp : parseRawRule a with
      | .error msg =>
        refine ⟨msg, ?_⟩
        show (do
          let rule ← parseRawRule a
          let rules ← parseRules rest
          pure (rule :: rules) : Except String (List RuleDefinition)) = _
        rw [hp]
        rfl
      | .ok rule =>
        rcases ih hr with ⟨msg, hmsg⟩
        refine ⟨msg, ?_⟩
        show (do
          let rule ← parseRawRule a
          let rules ← parseRules rest
          pure (rule :: rules) : Except String (List RuleDefinition)) = _
        rw [hp, hmsg]
        rfl

/-- **C6 amended.** Malformed content fails construction (unreadable JSON
raises; a rule verdict outside the closed enum raises `ValueError`), but a
MISSING ontology, rules or compounds table is tolerated: construction
succeeds with empty tables and the engine serves. -/
theorem trennkost_c6 :
    (∀ msg, loadRules (TableSource.malformed msg) = Except.error msg) ∧
    (∀ (d : RulesFile) (r : RawRule), r ∈ d.rules → Verdict.fromString r.verdict = none →
      ∃ msg, loadRules (TableSource.parsed d) = Except.error msg) ∧
    (∀ msg, loadOntologyRows (TableSource.malformed msg) = Except.error msg) ∧
    (∀ msg, loadCompounds (TableSource.malformed msg) = Except.error msg) ∧
    loadRules TableSource.missing = Except.ok {} ∧
    buildOntology TableSource.missing TableSource.missing = Except.ok {} := by
  refine ⟨fun msg => rfl, ?_, fun msg => rfl, fun msg => rfl, rfl, rfl⟩
  intro d r hr he
  rcases parseRules_error d.rules r hr he with ⟨msg, hmsg⟩
  refine ⟨msg, ?_⟩
  show (do
    let rules ← parseRules d.rules
    Except.ok { rules := rules,
                rule_priority := d.rule_priority.getD (rules.map (·.rule_id)) } :
      Except String TrennkostEngine) = _
  rw [hmsg]
  rfl

/-- Witness for C6 (amended): a one-rule table whose verdict string is
misspelled fails to load; the missing table loads as the empty engine. -/
theorem trennkost_c6_witness :
    (∃ msg, loadRules (TableSource.parsed
      { rules := [{ rule_id := "R001", description := "d",
                    condition := { pair := some ("KH", "PROTEIN") },
                    verdict := "NOTOK", severity := "CRITICAL",
                    source_ref := "s", explanation := "e" }] }) = Except.error msg) ∧
    loadRules TableSource.missing = Except.ok {} :=
  ⟨trennkost_c6.2.1 _ _ (List.mem_singleton_self _) (by decide), trennkost_c6.2.2.2.2.1⟩

/-- A NOT_OK result whose problems name a conflicting group (`MILCH`) that
has no matched items in `groups_found` (reachable e.g. through the fixed
H001 advisory, whose `affected_groups` is always `["KH"]` regardless of the
sugar item's actual group). -/
def c9CounterResult : TrennkostResult :=
  { dish_name := "Test", verdict := .NOT_OK, summary := "",
    problems :=
      [{ rule_id := "R006", description := "", severity := .CRITICAL,
         affected_items := [], affected_groups := ["PROTEIN", "MILCH"],
         source_ref := "", explanation := "" },
       { rule_id := "H001", description := "", severity := .INFO,
         affected_items := [], affected_groups := ["KH"],
         source_ref := "", explanation := "" }],
    groups_found := [("PROTEIN", ["Ei"]), ("MILCH", ["Käse"])] }

/-- **C9 counterexample.** A NOT_OK result with three distinct non-NEUTRAL
conflicting groups for which `_generate_fix_directions` returns only two
directions: the conflicting group `KH` has no matched items in
`groups_found` and is silently skipped, so "exactly one direction per
conflicting group" fails. -/
theorem trennkost_c9_counterexample :
    c9CounterResult.verdict = Verdict.NOT_OK ∧
    (conflictingGroupsOf c9CounterResult).length = 3 ∧
    (generateFixDirections c9CounterResult).length = 2 := by decide

/-- **C9 (amended).** `_generate_fix_directions` returns `[]` whenever the
verdict is not NOT_OK; and for a NOT_OK result with ≥ 2 distinct
non-NEUTRAL/non-UNKNOWN conflicting groups, it returns exactly one
direction per conflicting group PROVIDED each conflicting group has at
least one matched item in `groups_found` (conflicting groups without
matched items are skipped — see the counterexample). -/
theorem trennkost_c9 (r : TrennkostResult) :
    (r.verdict ≠ Verdict.NOT_OK → generateFixDirections r = []) ∧
    (r.verdict = Verdict.NOT_OK → 2 ≤ (conflictingGroupsOf r).length →
      (∀ g ∈ conflictingGroupsOf r, gfGet r.groups_found g ≠ []) →
      (generateFixDirections r).length = (conflictingGroupsOf r).length) := by
  constructor
  · intro h
    simp [generateFixDirections, h]
  · intro hv hlen hmatched
    have hnot : ¬ (r.verdict ≠ Verdict.NOT_OK) := by simp [hv]
    simp only [generateFixDirections, if_neg hnot]
    rw [if_neg (by omega)]
    rw [length_filterMap_of_forall_isSome, length_insSort]
    intro g hg
    have hmem : g ∈ conflictingGroupsOf r := (mem_insSort g _).mp hg
    have hne := hmatched g hmem
    rw [if_neg (by simpa [List.isEmpty_iff] using hne)]
    rfl

/-- Witness for C9 (amended): two conflicting groups, both matched, two
directions. -/
theorem trennkost_c9_witness :
    (let r : TrennkostResult :=
      { dish_name := "Test", verdict := .NOT_OK, summary := "",
        problems :=
          [{ rule_id := "R001", description := "", severity := .CRITICAL,
             affected_items := [], affected_groups := ["KH", "PROTEIN"],
             source_ref := "", explanation := "" }],
        groups_found := [("KH", ["Reis"]), ("PROTEIN", ["Hähnchen"])] }
    r.verdict = Verdict.NOT_OK ∧
    (conflictingGroupsOf r).length = 2 ∧
    (generateFixDirections r).length = (conflictingGroupsOf r).length) :=
  ⟨by decide, by decide,
    (trennkost_c9 _).2 (by decide) (by decide) (by decide)⟩


/-! ## C2: unresolved items force a question and bar OK -/

theorem filter_reason_nil (rc : String) (l : List RequiredQuestion)
    (h : ∀ q ∈ l, q.reason ≠ rc) :
    l.filter (fun q => q.reason == rc) = [] := by
  rw [List.filter_eq_nil_iff]
  intro q hq
  simpa using h q hq

theorem reason_of_mem_assumedQuestions (a : DishAnalysis) (ha : Bool)
    (q : RequiredQuestion) (h : q ∈ assumedQuestions a ha) :
    q.reason = assumedQReason := by
  unfold assumedQuestions at h
  split at h
  · rcases List.mem_singleton.mp h with rfl
    rfl
  · cases h

theorem reason_of_mem_ambiguousQuestions (ont : Ontology) (a : DishAnalysis)
    (q : RequiredQuestion) (h : q ∈ ambiguousQuestions ont a) :
    q.reason = ambiguousQReason := by
  unfold ambiguousQuestions at h
  rcases List.mem_map.mp h with ⟨p, _, rfl⟩
  rfl

theorem reason_of_mem_fatQuestions (gf : List (String × List String))
    (q : RequiredQuestion) (h : q ∈ fatQuestions gf) : q.reason = fatQReason := by
  unfold fatQuestions at h
  split at h
  · rcases List.mem_singleton.mp h with rfl
    rfl
  · cases h

theorem reason_of_mem_compoundQuestions (ont : Ontology) (a : DishAnalysis)
    (q : RequiredQuestion) (h : q ∈ compoundQuestions ont a) :
    q.reason = compoundQReason := by
  unfold compoundQuestions at h
  split at h
  · split at h
    · rcases List.mem_singleton.mp h with rfl
      rfl
    · cases h
  · cases h

theorem buildQuestions_filter_unknown (ont : Ontology) (a : DishAnalysis)
    (gf : List (String × List String)) (ha : Bool) :
    (buildQuestions ont a gf true ha).filter (fun q => q.reason == unknownQReason) =
      [unknownQuestionOf a] := by
  unfold buildQuestions
  rw [List.filter_append, List.filter_append, List.filter_append, List.filter_append]
  rw [filter_reason_nil unknownQReason (assumedQuestions a ha) (fun q hq => by
    rw [reason_of_mem_assumedQuestions a ha q hq]
    decide)]
  rw [filter_reason_nil unknownQReason (ambiguousQuestions ont a) (fun q hq => by
    rw [reason_of_mem_ambiguousQuestions ont a q hq]
    decide)]
  rw [filter_reason_nil unknownQReason (fatQuestions gf) (fun q hq => by
    rw [reason_of_mem_fatQuestions gf q hq]
    decide)]
  rw [filter_reason_nil unknownQReason (compoundQuestions ont a) (fun q hq => by
    rw [reason_of_mem_compoundQuestions ont a q hq]
    decide)]
  simp [unknownQuestions, List.filter, unknownQuestionOf]

theorem determineVerdict_of_unknown (problems : List RuleProblem)
    (questions : List RequiredQuestion) :
    determineVerdict problems questions true = Verdict.NOT_OK ∨
    determineVerdict problems questions true = Verdict.CONDITIONAL := by
  unfold determineVerdict
  split
  · exact Or.inl rfl
  · rw [if_pos (Or.inr rfl)]
    exact Or.inr rfl

/-- **C2.** Any `DishAnalysis` with unresolved (unknown) items is never OK —
the verdict is NOT_OK or CONDITIONAL — and the returned questions contain
exactly one question with the batched unknown-items reason; that single
question lists exactly the unresolved names in `affects_items` and every
unresolved name appears verbatim (as a substring) in its text. -/
theorem trennkost_c2 (e : TrennkostEngine) (ont : Ontology) (a : DishAnalysis)
    (h : a.unknown_items ≠ []) :
    ((evaluate e ont a).verdict = Verdict.NOT_OK ∨
     (evaluate e ont a).verdict = Verdict.CONDITIONAL) ∧
    (evaluate e ont a).required_questions.filter (fun q => q.reason == unknownQReason) =
      [unknownQuestionOf a] ∧
    (unknownQuestionOf a).affects_items = a.unknown_items ∧
    (∀ n ∈ a.unknown_items, strIn n (unknownQuestionOf a).question = true) := by
  have hu : (!a.unknown_items.isEmpty) = true := by
    simp [List.isEmpty_iff, h]
  refine ⟨?_, ?_, rfl, ?_⟩
  · rw [evaluate_verdict_eq, hu]
    exact determineVerdict_of_unknown _ _
  · rw [evaluate_questions_eq, hu]
    exact buildQuestions_filter_unknown ont a _ _
  · intro n hn
    show strIn n ("Folgende Zutaten konnte ich nicht eindeutig zuordnen: " ++
      joinComma a.unknown_items ++ ". Kannst du diese näher beschreiben?") = true
    exact strIn_append_right _ _ _ (strIn_append_left _ _ _ (strIn_joinComma n _ hn))

/-- Witness for C2: a dish with the unresolved name `Mysterium-Pulver`. -/
theorem trennkost_c2_witness :
    (analysisOf "Test" ["Kartoffel", "Mysterium-Pulver"]).unknown_items ≠ [] ∧
    ((evaluate specEngine specOntology (analysisOf "Test" ["Kartoffel", "Mysterium-Pulver"])).verdict = Verdict.NOT_OK ∨
     (evaluate specEngine specOntology (analysisOf "Test" ["Kartoffel", "Mysterium-Pulver"])).verdict = Verdict.CONDITIONAL) ∧
    (evaluate specEngine specOntology (analysisOf "Test" ["Kartoffel", "Mysterium-Pulver"])).required_questions.filter
        (fun q => q.reason == unknownQReason) =
      [unknownQuestionOf (analysisOf "Test" ["Kartoffel", "Mysterium-Pulver"])] ∧
    (unknownQuestionOf (analysisOf "Test" ["Kartoffel", "Mysterium-Pulver"])).affects_items =
      (analysisOf "Test" ["Kartoffel", "Mysterium-Pulver"]).unknown_items ∧
    (∀ n ∈ (analysisOf "Test" ["Kartoffel", "Mysterium-Pulver"]).unknown_items,
      strIn n (unknownQuestionOf (analysisOf "Test" ["Kartoffel", "Mysterium-Pulver"])).question = true) :=
  ⟨by decide, trennkost_c2 specEngine specOntology _ (by decide)⟩

/-! ## C4: mixed protein subgroups yield the CRITICAL R018 problem -/

theorem gfGet_gfInsert_superset (m : List (String × List String)) (k v k' : String)
    (x : String) (h : x ∈ gfGet m k') : x ∈ gfGet (gfInsert m k v) k' := by
  by_cases hk : k' = k
  · subst hk
    rw [gfGet_gfInsert_self]
    exact List.mem_append_left _ h
  · rw [gfGet_gfInsert_other m k v k' hk]
    exact h

theorem protStep_superset (m : List (String × List String)) (it : FoodItem)
    (k x : String) (h : x ∈ gfGet m k) : x ∈ gfGet (protStep m it) k := by
  unfold protStep
  split
  · match it.subgroup with
    | some s => exact gfGet_gfInsert_superset m s.value (itemLabel it) k x h
    | none => exact h
  · exact h

theorem protFold_superset (l : List FoodItem) :
    ∀ (m : List (String × List String)) (k x : String),
      x ∈ gfGet m k → x ∈ gfGet (l.foldl protStep m) k := by
  induction l with
  | nil => intro m k x h; exact h
  | cons it rest ih =>
    intro m k x h
    exact ih (protStep m it) k x (protStep_superset m it k x h)

theorem mem_protFold (l : List FoodItem) :
    ∀ (m : List (String × List String)) (it : FoodItem), it ∈ l →
      it.group = FoodGroup.PROTEIN → ∀ s, it.subgroup = some s →
      itemLabel it ∈ gfGet (l.foldl protStep m) s.value := by
  induction l with
  | nil => intro m it h; cases h
  | cons a rest ih =>
    intro m it hmem hg s hs
    rcases List.mem_cons.mp hmem with rfl | hmem
    · simp only [List.foldl_cons]
      refine protFold_superset rest (protStep m it) s.value (itemLabel it) ?_
      unfold protStep
      rw [if_pos hg, hs]
      rw [gfGet_gfInsert_self]
      exact List.mem_append_right _ (List.mem_singleton_self _)
    · exact ih (protStep m a) it hmem hg s hs

theorem mem_keys_of_gfGet_ne (m : List (String × List String)) (k : String)
    (h : gfGet m k ≠ []) : k ∈ m.map (·.1) := by
  unfold gfGet at h
  match hfind : m.find? (fun p => p.1 = k) with
  | none => rw [hfind] at h; simp at h
  | some p =>
    have hp := List.find?_some hfind
    have hmem := List.mem_of_find?_eq_some hfind
    refine List.mem_map.mpr ⟨p, hmem, ?_⟩
    simpa using hp

/-- **C4.** Whenever the confirmed + assumed items contain PROTEIN items of
two distinct subgroups (e.g. meat and fish, or meat and egg), `evaluate`
emits a CRITICAL problem with affected group PROTEIN whose affected items
list every subgrouped PROTEIN item (with its subgroup). -/
theorem trennkost_c4 (e : TrennkostEngine) (ont : Ontology) (a : DishAnalysis)
    (it1 it2 : FoodItem) (s1 s2 : FoodSubgroup)
    (h1 : it1 ∈ a.items ++ a.assumed_items) (h2 : it2 ∈ a.items ++ a.assumed_items)
    (hg1 : it1.group = FoodGroup.PROTEIN) (hg2 : it2.group = FoodGroup.PROTEIN)
    (hs1 : it1.subgroup = some s1) (hs2 : it2.subgroup = some s2) (hne : s1 ≠ s2) :
    ∃ p ∈ (evaluate e ont a).problems,
      p.rule_id = "R018" ∧ p.severity = Severity.CRITICAL ∧
      p.affected_groups = ["PROTEIN"] ∧
      ∀ it ∈ a.items ++ a.assumed_items, it.group = FoodGroup.PROTEIN →
        ∀ s, it.subgroup = some s →
          (itemLabel it ++ " (" ++ s.value ++ ")") ∈ p.affected_items := by
  have hv1 : it1.group.value = "PROTEIN" := by
    rw [hg1]
    decide
  have hv2 : it2.group.value = "PROTEIN" := by
    rw [hg2]
    decide
  have hm1 : s1 ∈ subgroupsFound (a.items ++ a.assumed_items) "PROTEIN" :=
    (mem_subgroupsFound _ _ _).mpr ⟨it1, h1, hv1, hs1⟩
  have hm2 : s2 ∈ subgroupsFound (a.items ++ a.assumed_items) "PROTEIN" :=
    (mem_subgroupsFound _ _ _).mpr ⟨it2, h2, hv2, hs2⟩
  have hlen : 2 ≤ (subgroupsFound (a.items ++ a.assumed_items) "PROTEIN").length :=
    two_mem_length _ s1 s2 hm1 hm2 hne
  have hr : r018Problems (a.items ++ a.assumed_items)
      (subgroupsFound (a.items ++ a.assumed_items)) =
      [r018Problem (a.items ++ a.assumed_items)] := by
    unfold r018Problems
    rw [if_pos hlen]
  refine ⟨r018Problem (a.items ++ a.assumed_items), ?_, rfl, rfl, rfl, ?_⟩
  · rw [evaluate_problems_eq, hr]
    exact List.mem_append_right _ (List.mem_singleton_self _)
  · intro it hit hgit s hsit
    have hlabel : itemLabel it ∈ gfGet (proteinSubgroupItems (a.items ++ a.assumed_items)) s.value :=
      mem_protFold _ [] it hit hgit s hsit
    have hkey : s.value ∈ (proteinSubgroupItems (a.items ++ a.assumed_items)).map (·.1) :=
      mem_keys_of_gfGet_ne _ _ (by
        intro hnil
        rw [hnil] at hlabel
        cases hlabel)
    refine List.mem_flatMap.mpr ⟨s.value, (mem_insSort _ _).mpr hkey, ?_⟩
    exact List.mem_map.mpr ⟨itemLabel it, hlabel, rfl⟩

/-- Witness for C4: egg + salmon (two distinct PROTEIN subgroups). -/
theorem trennkost_c4_witness :
    ∃ p ∈ (evaluate specEngine specOntology (analysisOf "Test" ["Ei", "Lachs"])).problems,
      p.rule_id = "R018" ∧ p.severity = Severity.CRITICAL ∧
      p.affected_groups = ["PROTEIN"] ∧
      ∀ it ∈ (analysisOf "Test" ["Ei", "Lachs"]).items ++ (analysisOf "Test" ["Ei", "Lachs"]).assumed_items,
        it.group = FoodGroup.PROTEIN → ∀ s, it.subgroup = some s →
          (itemLabel it ++ " (" ++ s.value ++ ")") ∈ p.affected_items :=
  trennkost_c4 specEngine specOntology (analysisOf "Test" ["Ei", "Lachs"])
    (lookupToFoodItem specOntology "Ei") (lookupToFoodItem specOntology "Lachs")
    FoodSubgroup.EIER FoodSubgroup.FISCH
    (by decide) (by decide) (by decide) (by decide) (by decide) (by decide) (by decide)

/-! ## C5: the compound clarification question and explicit items -/

theorem reason_of_mem_unknownQuestions (a : DishAnalysis) (hu : Bool)
    (q : RequiredQuestion) (h : q ∈ unknownQuestions a hu) :
    q.reason = unknownQReason := by
  unfold unknownQuestions at h
  split at h
  · rcases List.mem_singleton.mp h with rfl
    rfl
  · cases h

theorem compoundQuestions_of_explicit (ont : Ontology) (a : DishAnalysis)
    (h : hasExplicitItems a = true) : compoundQuestions ont a = [] := by
  unfold compoundQuestions
  match getCompound ont a.dish_name with
  | none => rfl
  | some c =>
    show (if optStrTruthy c.needs_clarification = true ∧ hasExplicitItems a = false then
      [{ question := c.needs_clarification.getD "", reason := compoundQReason,
         affects_items := [a.dish_name] }] else ([] : List RequiredQuestion)) = []
    rw [if_neg]
    intro hc
    rw [h] at hc
    simp at hc

theorem determineVerdict_of_questions (problems : List RuleProblem)
    (questions : List RequiredQuestion) (hq : questions ≠ []) (hu : Bool) :
    determineVerdict problems questions hu = Verdict.NOT_OK ∨
    determineVerdict problems questions hu = Verdict.CONDITIONAL := by
  unfold determineVerdict
  split
  · exact Or.inl rfl
  · rw [if_pos (Or.inl hq)]
    exact Or.inr rfl

/-- **C5.** The compound dish's own clarification prompt is emitted iff no
explicit ingredient list was supplied: with explicit (non-assumed) items no
returned question carries the compound-clarification reason; without them,
a compound with a (truthy) clarification prompt yields exactly one such
question — verbatim the prompt — and the verdict cannot be OK. -/
theorem trennkost_c5 (e : TrennkostEngine) (ont : Ontology) (a : DishAnalysis) :
    (hasExplicitItems a = true →
      ∀ q ∈ (evaluate e ont a).required_questions, q.reason ≠ compoundQReason) ∧
    (∀ c, getCompound ont a.dish_name = some c →
      optStrTruthy c.needs_clarification = true → hasExplicitItems a = false →
      (evaluate e ont a).required_questions.filter (fun q => q.reason == compoundQReason) =
        [{ question := c.needs_clarification.getD "", reason := compoundQReason,
           affects_items := [a.dish_name] }] ∧
      (evaluate e ont a).verdict ≠ Verdict.OK ∧
      (evaluate e ont a).verdict ≠ Verdict.UNKNOWN) := by
  constructor
  · intro hex q hq
    rw [evaluate_questions_eq] at hq
    unfold buildQuestions at hq
    rw [compoundQuestions_of_explicit ont a hex, List.append_nil] at hq
    rcases List.mem_append.mp hq with hq | hq
    · rcases List.mem_append.mp hq with hq | hq
      · rcases List.mem_append.mp hq with hq | hq
        · rw [reason_of_mem_unknownQuestions a _ q hq]
          decide
        · rw [reason_of_mem_assumedQuestions a _ q hq]
          decide
      · rw [reason_of_mem_ambiguousQuestions ont a q hq]
        decide
    · rw [reason_of_mem_fatQuestions _ q hq]
      decide
  · intro c hc htruthy hex
    have hcq : compoundQuestions ont a =
        [{ question := c.needs_clarification.getD "", reason := compoundQReason,
           affects_items := [a.dish_name] }] := by
      unfold compoundQuestions
      rw [hc]
      show (if optStrTruthy c.needs_clarification = true ∧ hasExplicitItems a = false then
        [{ question := c.needs_clarification.getD "", reason := compoundQReason,
           affects_items := [a.dish_name] }] else ([] : List RequiredQuestion)) = _
      rw [if_pos ⟨htruthy, hex⟩]
    have hq : (evaluate e ont a).required_questions =
        unknownQuestions a (!a.unknown_items.isEmpty) ++
        assumedQuestions a (!a.assumed_items.isEmpty) ++
        ambiguousQuestions ont a ++
        fatQuestions (groupsFound (a.items ++ a.assumed_items)) ++
        [{ question := c.needs_clarification.getD "", reason := compoundQReason,
           affects_items := [a.dish_name] }] := by
      rw [evaluate_questions_eq]
      unfold buildQuestions
      rw [hcq]
    refine ⟨?_, ?_⟩
    · rw [hq]
      rw [List.filter_append, List.filter_append, List.filter_append, List.filter_append]
      rw [filter_reason_nil compoundQReason (unknownQuestions a _) (fun q hmem => by
        rw [reason_of_mem_unknownQuestions a _ q hmem]
        decide)]
      rw [filter_reason_nil compoundQReason (assumedQuestions a _) (fun q hmem => by
        rw [reason_of_mem_assumedQuestions a _ q hmem]
        decide)]
      rw [filter_reason_nil compoundQReason (ambiguousQuestions ont a) (fun q hmem => by
        rw [reason_of_mem_ambiguousQuestions ont a q hmem]
        decide)]
      rw [filter_reason_nil compoundQReason (fatQuestions _) (fun q hmem => by
        rw [reason_of_mem_fatQuestions _ q hmem]
        decide)]
      simp [List.filter]
    · have hne : (evaluate e ont a).required_questions ≠ [] := by
        rw [hq]
        simp
      have hv := determineVerdict_of_questions (evaluate e ont a).problems
        (evaluate e ont a).required_questions hne (!a.unknown_items.isEmpty)
      rw [← evaluate_verdict_eq] at hv
      rcases hv with hv | hv <;> rw [hv] <;> exact ⟨by decide, by decide⟩

/-- The normalized "Burger" analysis with no explicit items (see the
`normalizeDish` example above). -/
def burgerNoItemsA : DishAnalysis :=
  { dish_name := "Burger", items := [], unknown_items := [],
    assumed_items := [lookupToFoodItem specOntology "Rindfleisch" true
      (some "Typische optionale Zutat in Burger")] }

/-- Witness for C5: the burger scenario of §8 — no explicit items ⇒ the
clarification question is asked (CONDITIONAL); explicit tempeh/lettuce/
cucumber ⇒ no compound question. -/
theorem trennkost_c5_witness :
    ((evaluate specEngine specOntology burgerNoItemsA).required_questions.filter
        (fun q => q.reason == compoundQReason) =
      [{ question := "Ist der Burger mit Fleisch oder vegetarisch gemeint?",
         reason := compoundQReason, affects_items := ["Burger"] }] ∧
     (evaluate specEngine specOntology burgerNoItemsA).verdict ≠ Verdict.OK ∧
     (evaluate specEngine specOntology burgerNoItemsA).verdict ≠ Verdict.UNKNOWN) ∧
    (evaluate specEngine specOntology burgerNoItemsA).verdict = Verdict.CONDITIONAL ∧
    (∀ q ∈ (evaluate specEngine specOntology
        (analysisOf "Burger" ["Tempeh", "Salat", "Gurke"])).required_questions,
      q.reason ≠ compoundQReason) :=
  ⟨(trennkost_c5 specEngine specOntology burgerNoItemsA).2
      { base_items := [], optional_items := ["Rindfleisch"],
        needs_clarification := some "Ist der Burger mit Fleisch oder vegetarisch gemeint?" }
      (by decide) (by decide) (by decide),
   by decide,
   fun q hq => (trennkost_c5 specEngine specOntology _).1 (by decide) q hq⟩

/-! ## C1: the verdict classification -/

theorem stepRule_problems (gf : List (String × List String)) (st : LoopState)
    (rule : RuleDefinition) (d : Detail) :
    ∀ p ∈ (stepRule gf st rule d).problems,
      p ∈ st.problems ∨ (p.rule_id = rule.rule_id ∧ p.severity = rule.severity) := by
  intro p hp
  unfold stepRule at hp
  split at hp
  · exact Or.inl hp
  · split at hp
    · rcases List.mem_append.mp hp with hp | hp
      · exact Or.inl hp
      · rcases List.mem_singleton.mp hp with rfl
        exact Or.inr ⟨rfl, rfl⟩
    · exact Or.inl hp

theorem stepOne_problems (e : TrennkostEngine) (gs : List String)
    (subs : String → List FoodSubgroup) (gf : List (String × List String))
    (hu ha : Bool) (st : LoopState) (rid : String) :
    ∀ p ∈ (stepOne e gs subs gf hu ha st rid).problems,
      p ∈ st.problems ∨ ∃ r ∈ e.rules, p.rule_id = r.rule_id ∧ p.severity = r.severity := by
  intro p hp
  unfold stepOne at hp
  match hfind : getRule e rid with
  | none =>
    rw [hfind] at hp
    exact Or.inl hp
  | some rule =>
    rw [hfind] at hp
    have hrule : rule ∈ e.rules := List.mem_of_find?_eq_some hfind
    have hp2 : p ∈ (match checkRule rule gs subs gf hu ha st.triggered with
        | none => st
        | some d => stepRule gf st rule d).problems := hp
    match hchk : checkRule rule gs subs gf hu ha st.triggered with
    | none =>
      rw [hchk] at hp2
      exact Or.inl hp2
    | some d =>
      rw [hchk] at hp2
      rcases stepRule_problems gf st rule d p hp2 with hp2 | hp2
      · exact Or.inl hp2
      · exact Or.inr ⟨rule, hrule, hp2⟩

theorem runRules_problems (e : TrennkostEngine) (gs : List String)
    (subs : String → List FoodSubgroup) (gf : List (String × List String))
    (hu ha : Bool) :
    ∀ p ∈ (runRules e gs subs gf hu ha).problems,
      ∃ r ∈ e.rules, p.rule_id = r.rule_id ∧ p.severity = r.severity := by
  unfold runRules
  suffices h : ∀ (l : List String) (st : LoopState),
      (∀ p ∈ st.problems, ∃ r ∈ e.rules, p.rule_id = r.rule_id ∧ p.severity = r.severity) →
      ∀ p ∈ (l.foldl (stepOne e gs subs gf hu ha) st).problems,
        ∃ r ∈ e.rules, p.rule_id = r.rule_id ∧ p.severity = r.severity by
    exact h e.rule_priority {} (by intro p hp; cases hp)
  intro l
  induction l with
  | nil => intro st hst; exact hst
  | cons rid rest ih =>
    intro st hst
    simp only [List.foldl_cons]
    refine ih (stepOne e gs subs gf hu ha st rid) ?_
    intro p hp
    rcases stepOne_problems e gs subs gf hu ha st rid p hp with hp | hp
    · exact hst p hp
    · exact hp

theorem zucker_severity (l : List FoodItem) :
    ∀ p ∈ zuckerProblems l, p.severity = Severity.INFO := by
  intro p hp
  unfold zuckerProblems at hp
  split at hp
  · cases hp
  · rcases List.mem_singleton.mp hp with rfl
    rfl

theorem r018_rule_id (l : List FoodItem) (subs : String → List FoodSubgroup) :
    ∀ p ∈ r018Problems l subs, p.rule_id = "R018" := by
  intro p hp
  unfold r018Problems at hp
  split at hp
  · rcases List.mem_singleton.mp hp with rfl
    rfl
  · cases hp

/-- **C1.** With a rule table whose ids all start with `"R0"` (as the
shipped table's R001–R018 do), the verdict of `evaluate` follows exactly
the documented priority: NOT_OK iff some problem is CRITICAL; else
CONDITIONAL iff there is a question, an unresolved item or a WARNING
problem; else OK — and UNKNOWN is never produced. -/
theorem trennkost_c1 (e : TrennkostEngine) (ont : Ontology) (a : DishAnalysis)
    (res : TrennkostResult) (hres : res = evaluate e ont a)
    (hR : ∀ r ∈ e.rules, strStarts r.rule_id "R0" = true) :
    res.verdict ≠ Verdict.UNKNOWN ∧
    (res.verdict = Verdict.NOT_OK ↔ ∃ p ∈ res.problems, p.severity = Severity.CRITICAL) ∧
    (res.verdict = Verdict.CONDITIONAL ↔
      ((¬ ∃ p ∈ res.problems, p.severity = Severity.CRITICAL) ∧
       (res.required_questions ≠ [] ∨ a.unknown_items ≠ [] ∨
        ∃ p ∈ res.problems, p.severity = Severity.WARNING))) ∧
    (res.verdict = Verdict.OK ↔
      ((¬ ∃ p ∈ res.problems, p.severity = Severity.CRITICAL) ∧
       res.required_questions = [] ∧ a.unknown_items = [] ∧
       ¬ ∃ p ∈ res.problems, p.severity = Severity.WARNING)) := by
  have hQ : ∀ p ∈ res.problems, p.severity = Severity.CRITICAL →
      strStarts p.rule_id "R0" = true := by
    rw [hres, evaluate_problems_eq]
    intro p hp hcrit
    rcases List.mem_append.mp hp with hp | hp
    · rcases List.mem_append.mp hp with hp | hp
      · rcases runRules_problems e _ _ _ _ _ p hp with ⟨r, hr, hid, _⟩
        rw [hid]
        exact hR r hr
      · have := zucker_severity _ p hp
        rw [this] at hcrit
        exact absurd hcrit (by decide)
    · rw [r018_rule_id _ _ p hp]
      decide
  have hcrit_iff :
      (∃ p ∈ res.problems, strStarts p.rule_id "R0" = true ∧ p.severity = Severity.CRITICAL) ↔
      (∃ p ∈ res.problems, p.severity = Severity.CRITICAL) := by
    constructor
    · rintro ⟨p, hp, _, hc⟩
      exact ⟨p, hp, hc⟩
    · rintro ⟨p, hp, hc⟩
      exact ⟨p, hp, hQ p hp hc, hc⟩
  have hu_iff : ((!a.unknown_items.isEmpty) = true) ↔ a.unknown_items ≠ [] := by
    simp [List.isEmpty_iff]
  have hveq : res.verdict =
      determineVerdict res.problems res.required_questions (!a.unknown_items.isEmpty) := by
    rw [hres]
    exact evaluate_verdict_eq e ont a
  rw [hveq]
  unfold determineVerdict
  by_cases hC : ∃ p ∈ res.problems, strStarts p.rule_id "R0" = true ∧ p.severity = Severity.CRITICAL
  · rw [if_pos hC]
    refine ⟨by decide, iff_of_true rfl (hcrit_iff.mp hC), ?_, ?_⟩
    · exact iff_of_false (by decide) (fun h => h.1 (hcrit_iff.mp hC))
    · exact iff_of_false (by decide) (fun h => h.1 (hcrit_iff.mp hC))
  · rw [if_neg hC]
    have hnc : ¬ ∃ p ∈ res.problems, p.severity = Severity.CRITICAL :=
      fun h => hC (hcrit_iff.mpr h)
    by_cases hQU : res.required_questions ≠ [] ∨ (!a.unknown_items.isEmpty) = true
    · rw [if_pos hQU]
      refine ⟨by decide, iff_of_false (by decide) (fun h => hnc h), ?_, ?_⟩
      · refine iff_of_true rfl ⟨hnc, ?_⟩
        rcases hQU with h | h
        · exact Or.inl h
        · exact Or.inr (Or.inl (hu_iff.mp h))
      · refine iff_of_false (by decide) ?_
        rintro ⟨_, hq, hunk, _⟩
        rcases hQU with h | h
        · exact h hq
        · exact (hu_iff.mp h) hunk
    · rw [if_neg hQU]
      have hq : res.required_questions = [] := by
        by_contra h
        exact hQU (Or.inl h)
      have hunk : a.unknown_items = [] := by
        by_contra h
        exact hQU (Or.inr (hu_iff.mpr h))
      by_cases hW : ∃ p ∈ res.problems, p.severity = Severity.WARNING
      · rw [if_pos hW]
        refine ⟨by decide, iff_of_false (by decide) (fun h => hnc h), ?_, ?_⟩
        · exact iff_of_true rfl ⟨hnc, Or.inr (Or.inr hW)⟩
        · exact iff_of_false (by decide) (fun h => h.2.2.2 hW)
      · rw [if_neg hW]
        refine ⟨by decide, iff_of_false (by decide) (fun h => hnc h), ?_, ?_⟩
        · refine iff_of_false (by decide) ?_
          rintro ⟨_, (h | h | h)⟩
          · exact h hq
          · exact h hunk
          · exact hW h
        · exact iff_of_true rfl ⟨hnc, hq, hunk, hW⟩

/-- Witness for C1 at the `["Reis", "Hähnchen"]` fixture (all spec-modelled
rule ids start with `"R0"`; the verdict is NOT_OK with a CRITICAL problem). -/
theorem trennkost_c1_witness :
    (∀ r ∈ specEngine.rules, strStarts r.rule_id "R0" = true) ∧
    ((evaluate specEngine specOntology (analysisOf "Test" ["Reis", "Hähnchen"])).verdict =
        Verdict.NOT_OK ↔
      ∃ p ∈ (evaluate specEngine specOntology (analysisOf "Test" ["Reis", "Hähnchen"])).problems,
        p.severity = Severity.CRITICAL) :=
  ⟨by decide,
   (trennkost_c1 specEngine specOntology (analysisOf "Test" ["Reis", "Hähnchen"]) _ rfl
     (by decide)).2.1⟩

/-! ## C10: strict-mode escalation in the analyzer -/

/-- **C10.** In strict mode the analyzer evaluates the dish with assumed
items removed; whenever that strict evaluation is OK but re-evaluating with
the assumed items included is NOT_OK, the returned verdict is CONDITIONAL
with the summary stating that typical additional ingredients would make the
dish non-compliant. -/
theorem trennkost_c10 (e : TrennkostEngine) (ont : Ontology) (llm : Option LlmFn)
    (dish_name : String) (raw_items : Option (List String)) (analysis : DishAnalysis)
    (hn : normalizeDish ont dish_name raw_items llm = Except.ok analysis)
    (hass : analysis.assumed_items ≠ [])
    (hstrict : (evaluate e ont
      { dish_name := analysis.dish_name, items := analysis.items,
        unknown_items := analysis.unknown_items, assumed_items := [] }).verdict =
      Verdict.OK)
    (hassump : (evaluate e ont
      { dish_name := analysis.dish_name,
        items := analysis.items ++ analysis.assumed_items,
        unknown_items := analysis.unknown_items,
        assumed_items := analysis.assumed_items }).verdict = Verdict.NOT_OK) :
    (processDish e ont "strict" llm dish_name raw_items).map
      (fun r => (r.verdict, r.summary)) =
    Except.ok (Verdict.CONDITIONAL,
      dish_name ++ ": Bedingt OK — mit typischen Zusatz-Zutaten wäre es NOT_OK.") := by
  unfold processDish
  rw [hn]
  show (if "strict" = "strict" ∧ analysis.assumed_items ≠ [] then _ else _ :
    Except PyErr TrennkostResult).map _ = _
  rw [if_pos ⟨rfl, hass⟩]
  have hnames : analysis.assumed_items.map (fun x => x.raw_name) ≠ [] := by
    simpa using hass
  simp [hnames, hstrict, hassump]
  rfl

/-- The normalized "Pasta Carbonara" analysis (see the `processDish`
example above): confirmed pasta, assumed cream. -/
def carbonaraA : DishAnalysis :=
  { dish_name := "Pasta Carbonara",
    items := [lookupToFoodItem specOntology "Pasta"],
    unknown_items := [],
    assumed_items := [lookupToFoodItem specOntology "Sahne" true
      (some "Typische optionale Zutat in Pasta Carbonara")] }

/-- Witness for C10: strict "Pasta Carbonara" is OK, with the assumed cream
it is NOT_OK (KH + MILCH), so the analyzer returns CONDITIONAL with the
escalation summary. -/
theorem trennkost_c10_witness :
    (processDish specEngine specOntology "strict" none "Pasta Carbonara" none).map
      (fun r => (r.verdict, r.summary)) =
    Except.ok (Verdict.CONDITIONAL,
      "Pasta Carbonara" ++ ": Bedingt OK — mit typischen Zusatz-Zutaten wäre es NOT_OK.") :=
  trennkost_c10 specEngine specOntology none "Pasta Carbonara" none carbonaraA
    (by decide) (by decide) (by decide) (by decide)

/-! ## C7: callback-failure handling in the normalizer -/

/-- **C7 (code bug).** A RAISING classify callback (or syntactically
unparseable output) degrades cleanly: `normalize_dish` returns exactly what
it returns without any callback.  But structurally invalid yet parseable
output — here the valid JSON array `["x"]` — escapes the `try/except`: the
classification map comprehension `c["item"]` (normalizer.py:167) runs
outside any `try` and raises `TypeError` out of `normalize_dish`. -/
theorem trennkost_c7 :
    normalizeDish specOntology "Test" (some ["Mysterium-Pulver"])
        (some (fun _ _ => .ok (.arr [.str "x"]))) =
      Except.error (.typeError "string indices must be integers") ∧
    normalizeDish specOntology "Test" (some ["Mysterium-Pulver"])
        (some (fun _ _ => .error "RuntimeError: boom")) =
      normalizeDish specOntology "Test" (some ["Mysterium-Pulver"]) none := by
  exact ⟨by decide, by decide⟩

/-! ## C3: the smoothie exception and the general fruit + vegetable rule -/

theorem checkRule_eq_pair (rule : RuleDefinition) (g1 g2 : String)
    (hp : rule.condition.pair = some (g1, g2)) (gs : List String)
    (subs : String → List FoodSubgroup) (gf : List (String × List String))
    (hu ha : Bool) (tp : List (String × String)) :
    checkRule rule gs subs gf hu ha tp = checkPairRule rule g1 g2 gs subs gf tp := by
  unfold checkRule
  rw [hp]

theorem checkPairRule_absent (rule : RuleDefinition) (g1 g2 : String)
    (gs : List String) (subs : String → List FoodSubgroup)
    (gf : List (String × List String)) (tp : List (String × String))
    (hne : g1 ≠ g2) (habs : g1 ∉ gs ∨ g2 ∉ gs) :
    checkPairRule rule g1 g2 gs subs gf tp = none := by
  unfold checkPairRule
  rw [if_neg hne, if_pos habs]

theorem checkPairRule_same_absent (rule : RuleDefinition) (g : String)
    (gs : List String) (subs : String → List FoodSubgroup)
    (gf : List (String × List String)) (tp : List (String × String))
    (hg : g ∉ gs) : checkPairRule rule g g gs subs gf tp = none := by
  unfold checkPairRule
  rw [if_pos rfl, if_neg (fun h => hg h.1)]

theorem checkPairRule_claimed (rule : RuleDefinition) (g1 g2 : String)
    (gs : List String) (subs : String → List FoodSubgroup)
    (gf : List (String × List String)) (tp : List (String × String))
    (hne : g1 ≠ g2) (h1 : g1 ∈ gs) (h2 : g2 ∈ gs)
    (htp : sortedPair g1 g2 ∈ tp) :
    checkPairRule rule g1 g2 gs subs gf tp = none := by
  unfold checkPairRule
  rw [if_neg hne, if_neg (by
    rintro (h | h)
    · exact h h1
    · exact h h2), if_pos htp]

theorem checkPairRule_exc (rule : RuleDefinition) (g1 g2 : String)
    (gs : List String) (subs : String → List FoodSubgroup)
    (gf : List (String × List String)) (tp : List (String × String))
    (allowed : List FoodSubgroup)
    (hne : g1 ≠ g2) (h1 : g1 ∈ gs) (h2 : g2 ∈ gs)
    (htp : sortedPair g1 g2 ∉ tp)
    (hexc : rule.condition.except_subgroups = some allowed) :
    checkPairRule rule g1 g2 gs subs gf tp = checkPairExc rule g1 g2 allowed subs := by
  unfold checkPairRule
  rw [if_neg hne, if_neg (by
    rintro (h | h)
    · exact h h1
    · exact h h2), if_neg htp, hexc]

theorem checkPairRule_noexc (rule : RuleDefinition) (g1 g2 : String)
    (gs : List String) (subs : String → List FoodSubgroup)
    (gf : List (String × List String)) (tp : List (String × String))
    (hne : g1 ≠ g2) (h1 : g1 ∈ gs) (h2 : g2 ∈ gs)
    (htp : sortedPair g1 g2 ∉ tp)
    (hexc : rule.condition.except_subgroups = none) :
    checkPairRule rule g1 g2 gs subs gf tp = checkPairPlain rule g1 g2 subs := by
  unfold checkPairRule
  rw [if_neg hne, if_neg (by
    rintro (h | h)
    · exact h h1
    · exact h h2), if_neg htp, hexc]

theorem checkPairExc_fires (rule : RuleDefinition) (g1 g2 : String)
    (allowed : List FoodSubgroup) (subs : String → List FoodSubgroup)
    (hall : allowed ≠ [])
    (hsub : subs "NEUTRAL" ≠ [] ∧ ∀ s ∈ subs "NEUTRAL", s ∈ allowed) :
    checkPairExc rule g1 g2 allowed subs = some (.pairD g1 g2) := by
  unfold checkPairExc
  rw [if_pos hall, if_pos hsub]

theorem checkPairExc_nofire (rule : RuleDefinition) (g1 g2 : String)
    (allowed : List FoodSubgroup) (subs : String → List FoodSubgroup)
    (hall : allowed ≠ [])
    (hsub : ¬ (subs "NEUTRAL" ≠ [] ∧ ∀ s ∈ subs "NEUTRAL", s ∈ allowed)) :
    checkPairExc rule g1 g2 allowed subs = none := by
  unfold checkPairExc
  rw [if_pos hall, if_neg hsub]

theorem checkPairPlain_r013_fires (rule : RuleDefinition) (g1 g2 : String)
    (subs : String → List FoodSubgroup) (hid : rule.rule_id = "R013")
    (hsub : ¬ (subs "NEUTRAL" ≠ [] ∧ ∀ s ∈ subs "NEUTRAL", s ∈ SMOOTHIE_SAFE_SUBGROUPS)) :
    checkPairPlain rule g1 g2 subs = some (.pairD g1 g2) := by
  unfold checkPairPlain
  rw [if_pos hid, if_neg hsub]

theorem stepOne_eq (e : TrennkostEngine) (gs : List String)
    (subs : String → List FoodSubgroup) (gf : List (String × List String))
    (hu ha : Bool) (st : LoopState) (rid : String) (rule : RuleDefinition)
    (hfind : getRule e rid = some rule) :
    stepOne e gs subs gf hu ha st rid =
      (match checkRule rule gs subs gf hu ha st.triggered with
       | none => st
       | some d => stepRule gf st rule d) := by
  unfold stepOne
  rw [hfind]

theorem stepOne_none (e : TrennkostEngine) (gs : List String)
    (subs : String → List FoodSubgroup) (gf : List (String × List String))
    (hu ha : Bool) (st : LoopState) (rid : String) (rule : RuleDefinition)
    (hfind : getRule e rid = some rule)
    (hchk : checkRule rule gs subs gf hu ha st.triggered = none) :
    stepOne e gs subs gf hu ha st rid = st := by
  rw [stepOne_eq e gs subs gf hu ha st rid rule hfind, hchk]

theorem stepOne_some (e : TrennkostEngine) (gs : List String)
    (subs : String → List FoodSubgroup) (gf : List (String × List String))
    (hu ha : Bool) (st : LoopState) (rid : String) (rule : RuleDefinition)
    (d : Detail) (hfind : getRule e rid = some rule)
    (hchk : checkRule rule gs subs gf hu ha st.triggered = some d) :
    stepOne e gs subs gf hu ha st rid = stepRule gf st rule d := by
  rw [stepOne_eq e gs subs gf hu ha st rid rule hfind, hchk]

theorem stepRule_ok_pair (gf : List (String × List String)) (st : LoopState)
    (rule : RuleDefinition) (g1 g2 : String) (hv : rule.verdict = Verdict.OK) :
    stepRule gf st rule (.pairD g1 g2) =
      { st with ok_notes := st.ok_notes ++ [rule.description],
                triggered := addPair st.triggered (sortedPair g1 g2) } := by
  unfold stepRule
  rw [if_pos hv]

theorem stepRule_warn_pair (gf : List (String × List String)) (st : LoopState)
    (rule : RuleDefinition) (g1 g2 : String)
    (hv : rule.verdict = Verdict.CONDITIONAL) :
    stepRule gf st rule (.pairD g1 g2) =
      { st with
        problems := st.problems ++
          [{ rule_id := rule.rule_id, description := rule.description,
             severity := rule.severity,
             affected_items :=
               (gfGet gf g1).map (fun l => l ++ " (" ++ g1 ++ ")") ++
               (gfGet gf g2).map (fun l => l ++ " (" ++ g2 ++ ")"),
             affected_groups := [g1, g2], source_ref := rule.source_ref,
             explanation := rule.explanation }],
        triggered := addPair st.triggered (sortedPair g1 g2) } := by
  unfold stepRule
  rw [if_neg (by rw [hv]; decide), if_pos (Or.inr hv)]

theorem zucker_rule_id (l : List FoodItem) :
    ∀ p ∈ zuckerProblems l, p.rule_id = "H001" := by
  intro p hp
  unfold zuckerProblems at hp
  split at hp
  · cases hp
  · rcases List.mem_singleton.mp hp with rfl
    rfl

/-- Priority run of the spec-modelled table over a dish whose groups are
exactly OBST and NEUTRAL, when all NEUTRAL subgroups are smoothie-safe:
only R012 fires (as an OK note claiming the pair); R013 is suppressed. -/
theorem runRules_smoothie_ok (gs : List String)
    (subs : String → List FoodSubgroup) (gf : List (String × List String))
    (hO : "OBST" ∈ gs) (hN : "NEUTRAL" ∈ gs)
    (hKH : "KH" ∉ gs) (hPROT : "PROTEIN" ∉ gs)
    (hMILCH : "MILCH" ∉ gs) (hHUEL : "HUELSENFRUECHTE" ∉ gs)
    (hsub : subs "NEUTRAL" ≠ [] ∧ ∀ s ∈ subs "NEUTRAL", s ∈ SMOOTHIE_SAFE_SUBGROUPS) :
    runRules specEngine gs subs gf false false =
      { problems := [], ok_notes := [specR012.description],
        triggered := [("NEUTRAL", "OBST")] } := by
  have h001 : ∀ st : LoopState, stepOne specEngine gs subs gf false false st "R001" = st :=
    fun st => stepOne_none _ _ _ _ _ _ _ _ specR001 rfl (by
      rw [checkRule_eq_pair specR001 "KH" "PROTEIN" rfl]
      exact checkPairRule_absent _ _ _ _ _ _ _ (by decide) (Or.inl hKH))
  have h002 : ∀ st : LoopState, stepOne specEngine gs subs gf false false st "R002" = st :=
    fun st => stepOne_none _ _ _ _ _ _ _ _ specR002 rfl (by
      rw [checkRule_eq_pair specR002 "KH" "MILCH" rfl]
      exact checkPairRule_absent _ _ _ _ _ _ _ (by decide) (Or.inl hKH))
  have h003 : ∀ st : LoopState, stepOne specEngine gs subs gf false false st "R003" = st :=
    fun st => stepOne_none _ _ _ _ _ _ _ _ specR003 rfl (by
      rw [checkRule_eq_pair specR003 "HUELSENFRUECHTE" "KH" rfl]
      exact checkPairRule_absent _ _ _ _ _ _ _ (by decide) (Or.inl hHUEL))
  have h004 : ∀ st : LoopState, stepOne specEngine gs subs gf false false st "R004" = st :=
    fun st => stepOne_none _ _ _ _ _ _ _ _ specR004 rfl (by
      rw [checkRule_eq_pair specR004 "HUELSENFRUECHTE" "PROTEIN" rfl]
      exact checkPairRule_absent _ _ _ _ _ _ _ (by decide) (Or.inl hHUEL))
  have h006 : ∀ st : LoopState, stepOne specEngine gs subs gf false false st "R006" = st :=
    fun st => stepOne_none _ _ _ _ _ _ _ _ specR006 rfl (by
      rw [checkRule_eq_pair specR006 "PROTEIN" "MILCH" rfl]
      exact checkPairRule_absent _ _ _ _ _ _ _ (by decide) (Or.inl hPROT))
  have h007 : ∀ st : LoopState, stepOne specEngine gs subs gf false false st "R007" = st :=
    fun st => stepOne_none _ _ _ _ _ _ _ _ specR007 rfl (by
      rw [checkRule_eq_pair specR007 "OBST" "KH" rfl]
      exact checkPairRule_absent _ _ _ _ _ _ _ (by decide) (Or.inr hKH))
  have h008 : ∀ st : LoopState, stepOne specEngine gs subs gf false false st "R008" = st :=
    fun st => stepOne_none _ _ _ _ _ _ _ _ specR008 rfl (by
      rw [checkRule_eq_pair specR008 "OBST" "PROTEIN" rfl]
      exact checkPairRule_absent _ _ _ _ _ _ _ (by decide) (Or.inr hPROT))
  have h015 : ∀ st : LoopState, stepOne specEngine gs subs gf false false st "R015" = st :=
    fun st => stepOne_none _ _ _ _ _ _ _ _ specR015 rfl (by
      rw [checkRule_eq_pair specR015 "KH" "KH" rfl]
      exact checkPairRule_same_absent _ _ _ _ _ _ hKH)
  have h012 : stepOne specEngine gs subs gf false false {} "R012" =
      ({ problems := [], ok_notes := [specR012.description],
         triggered := [("NEUTRAL", "OBST")] } : LoopState) := by
    rw [stepOne_some specEngine gs subs gf false false {} "R012" specR012
        (.pairD "OBST" "NEUTRAL") rfl (by
      rw [checkRule_eq_pair specR012 "OBST" "NEUTRAL" rfl,
          checkPairRule_exc specR012 "OBST" "NEUTRAL" gs subs gf _
            [.BLATTGRUEN, .KRAEUTER] (by decide) hO hN (List.not_mem_nil _) rfl]
      exact checkPairExc_fires specR012 "OBST" "NEUTRAL" _ subs (by decide) hsub)]
    rw [stepRule_ok_pair gf {} specR012 "OBST" "NEUTRAL" rfl]
    decide
  have h013 : stepOne specEngine gs subs gf false false
      ({ problems := [], ok_notes := [specR012.description],
         triggered := [("NEUTRAL", "OBST")] } : LoopState) "R013" =
      ({ problems := [], ok_notes := [specR012.description],
         triggered := [("NEUTRAL", "OBST")] } : LoopState) := by
    refine stepOne_none _ _ _ _ _ _ _ _ specR013 rfl ?_
    rw [checkRule_eq_pair specR013 "OBST" "NEUTRAL" rfl]
    exact checkPairRule_claimed _ _ _ _ _ _ _ (by decide) hO hN (by decide)
  show List.foldl (stepOne specEngine gs subs gf false false) {}
    ["R001", "R002", "R003", "R004", "R006", "R007", "R008", "R012", "R013", "R015"] = _
  simp only [List.foldl_cons, List.foldl_nil]
  rw [h001, h002, h003, h004, h006, h007, h008, h012, h013, h015]

/-- The R013 problem as recorded for an OBST + NEUTRAL dish. -/
def r013ProblemOf (gf : List (String × List String)) : RuleProblem :=
  { rule_id := specR013.rule_id, description := specR013.description,
    severity := specR013.severity,
    affected_items :=
      (gfGet gf "OBST").map (fun l => l ++ " (" ++ "OBST" ++ ")") ++
      (gfGet gf "NEUTRAL").map (fun l => l ++ " (" ++ "NEUTRAL" ++ ")"),
    affected_groups := ["OBST", "NEUTRAL"], source_ref := specR013.source_ref,
    explanation := specR013.explanation }

/-- Priority run of the spec-modelled table over a dish whose groups are
exactly OBST and NEUTRAL, when the NEUTRAL subgroups are NOT all
smoothie-safe: R012 does not fire and the general R013 warning claims the
pair. -/
theorem runRules_smoothie_warn (gs : List String)
    (subs : String → List FoodSubgroup) (gf : List (String × List String))
    (hO : "OBST" ∈ gs) (hN : "NEUTRAL" ∈ gs)
    (hKH : "KH" ∉ gs) (hPROT : "PROTEIN" ∉ gs)
    (hMILCH : "MILCH" ∉ gs) (hHUEL : "HUELSENFRUECHTE" ∉ gs)
    (hsub : ¬ (subs "NEUTRAL" ≠ [] ∧ ∀ s ∈ subs "NEUTRAL", s ∈ SMOOTHIE_SAFE_SUBGROUPS)) :
    runRules specEngine gs subs gf false false =
      { problems := [r013ProblemOf gf], ok_notes := [],
        triggered := [("NEUTRAL", "OBST")] } := by
  have h001 : ∀ st : LoopState, stepOne specEngine gs subs gf false false st "R001" = st :=
    fun st => stepOne_none _ _ _ _ _ _ _ _ specR001 rfl (by
      rw [checkRule_eq_pair specR001 "KH" "PROTEIN" rfl]
      exact checkPairRule_absent _ _ _ _ _ _ _ (by decide) (Or.inl hKH))
  have h002 : ∀ st : LoopState, stepOne specEngine gs subs gf false false st "R002" = st :=
    fun st => stepOne_none _ _ _ _ _ _ _ _ specR002 rfl (by
      rw [checkRule_eq_pair specR002 "KH" "MILCH" rfl]
      exact checkPairRule_absent _ _ _ _ _ _ _ (by decide) (Or.inl hKH))
  have h003 : ∀ st : LoopState, stepOne specEngine gs subs gf false false st "R003" = st :=
    fun st => stepOne_none _ _ _ _ _ _ _ _ specR003 rfl (by
      rw [checkRule_eq_pair specR003 "HUELSENFRUECHTE" "KH" rfl]
      exact checkPairRule_absent _ _ _ _ _ _ _ (by decide) (Or.inl hHUEL))
  have h004 : ∀ st : LoopState, stepOne specEngine gs subs gf false false st "R004" = st :=
    fun st => stepOne_none _ _ _ _ _ _ _ _ specR004 rfl (by
      rw [checkRule_eq_pair specR004 "HUELSENFRUECHTE" "PROTEIN" rfl]
      exact checkPairRule_absent _ _ _ _ _ _ _ (by decide) (Or.inl hHUEL))
  have h006 : ∀ st : LoopState, stepOne specEngine gs subs gf false false st "R006" = st :=
    fun st => stepOne_none _ _ _ _ _ _ _ _ specR006 rfl (by
      rw [checkRule_eq_pair specR006 "PROTEIN" "MILCH" rfl]
      exact checkPairRule_absent _ _ _ _ _ _ _ (by decide) (Or.inl hPROT))
  have h007 : ∀ st : LoopState, stepOne specEngine gs subs gf false false st "R007" = st :=
    fun st => stepOne_none _ _ _ _ _ _ _ _ specR007 rfl (by
      rw [checkRule_eq_pair specR007 "OBST" "KH" rfl]
      exact checkPairRule_absent _ _ _ _ _ _ _ (by decide) (Or.inr hKH))
  have h008 : ∀ st : LoopState, stepOne specEngine gs subs gf false false st "R008" = st :=
    fun st => stepOne_none _ _ _ _ _ _ _ _ specR008 rfl (by
      rw [checkRule_eq_pair specR008 "OBST" "PROTEIN" rfl]
      exact checkPairRule_absent _ _ _ _ _ _ _ (by decide) (Or.inr hPROT))
  have h015 : ∀ st : LoopState, stepOne specEngine gs subs gf false false st "R015" = st :=
    fun st => stepOne_none _ _ _ _ _ _ _ _ specR015 rfl (by
      rw [checkRule_eq_pair specR015 "KH" "KH" rfl]
      exact checkPairRule_same_absent _ _ _ _ _ _ hKH)
  have h012 : stepOne specEngine gs subs gf false false {} "R012" = ({} : LoopState) := by
    refine stepOne_none _ _ _ _ _ _ _ _ specR012 rfl ?_
    rw [checkRule_eq_pair specR012 "OBST" "NEUTRAL" rfl,
        checkPairRule_exc specR012 "OBST" "NEUTRAL" gs subs gf _
          [.BLATTGRUEN, .KRAEUTER] (by decide) hO hN (List.not_mem_nil _) rfl]
    exact checkPairExc_nofire specR012 "OBST" "NEUTRAL" _ subs (by decide) hsub
  have h013 : stepOne specEngine gs subs gf false false ({} : LoopState) "R013" =
      ({ problems := [r013ProblemOf gf], ok_notes := [],
         triggered := [("NEUTRAL", "OBST")] } : LoopState) := by
    rw [stepOne_some specEngine gs subs gf false false {} "R013" specR013
        (.pairD "OBST" "NEUTRAL") rfl (by
      rw [checkRule_eq_pair specR013 "OBST" "NEUTRAL" rfl,
          checkPairRule_noexc specR013 "OBST" "NEUTRAL" gs subs gf _
            (by decide) hO hN (List.not_mem_nil _) rfl]
      exact checkPairPlain_r013_fires specR013 "OBST" "NEUTRAL" subs rfl hsub)]
    rw [stepRule_warn_pair gf {} specR013 "OBST" "NEUTRAL" rfl]
    show ({ problems := ([] : List RuleProblem) ++ [_], ok_notes := [],
            triggered := addPair [] (sortedPair "OBST" "NEUTRAL") } : LoopState) = _
    rw [List.nil_append]
    rw [show addPair [] (sortedPair "OBST" "NEUTRAL") = [("NEUTRAL", "OBST")] from by decide]
    exact rfl
  show List.foldl (stepOne specEngine gs subs gf false false) {}
    ["R001", "R002", "R003", "R004", "R006", "R007", "R008", "R012", "R013", "R015"] = _
  simp only [List.foldl_cons, List.foldl_nil]
  rw [h001, h002, h003, h004, h006, h007, h008, h012, h013, h015]

/-- **C3.** For a dish whose (confirmed) items are exactly OBST and NEUTRAL
items — both groups present, nothing unresolved or assumed, no ambiguity or
compound questions for it — the smoothie exception behaves as specified:
if every NEUTRAL item's subgroup lies in `SMOOTHIE_SAFE_SUBGROUPS`, R012
claims the pair (its note is the only OK note), no R013 problem exists and
the verdict is OK; if some NEUTRAL item carries a non-smoothie-safe
subgroup, the general rule R013 fires as a WARNING on the pair, no
exception note exists, and the verdict is CONDITIONAL — never OK, never
NOT_OK. -/
theorem trennkost_c3 (ont : Ontology) (a : DishAnalysis)
    (hnoamb : getAmbiguousEntries ont (a.items ++ a.assumed_items) = [])
    (hnocomp : getCompound ont a.dish_name = none)
    (hunk : a.unknown_items = [])
    (hass : a.assumed_items = [])
    (hgroups : ∀ it ∈ a.items, it.group = FoodGroup.OBST ∨ it.group = FoodGroup.NEUTRAL)
    (hOBST : ∃ it ∈ a.items, it.group = FoodGroup.OBST)
    (hNEUT : ∃ it ∈ a.items, it.group = FoodGroup.NEUTRAL) :
    ((∀ it ∈ a.items, it.group = FoodGroup.NEUTRAL →
        ∃ s ∈ SMOOTHIE_SAFE_SUBGROUPS, it.subgroup = some s) →
      (evaluate specEngine ont a).verdict = Verdict.OK ∧
      (evaluate specEngine ont a).ok_combinations = [specR012.description] ∧
      (∀ p ∈ (evaluate specEngine ont a).problems, p.rule_id ≠ "R013")) ∧
    ((∃ it ∈ a.items, it.group = FoodGroup.NEUTRAL ∧
        ∃ s, it.subgroup = some s ∧ s ∉ SMOOTHIE_SAFE_SUBGROUPS) →
      (evaluate specEngine ont a).verdict = Verdict.CONDITIONAL ∧
      (∃ p ∈ (evaluate specEngine ont a).problems,
        p.rule_id = "R013" ∧ p.severity = Severity.WARNING ∧
        p.affected_groups = ["OBST", "NEUTRAL"]) ∧
      (evaluate specEngine ont a).ok_combinations = []) := by
  have hA : a.items ++ a.assumed_items = a.items := by
    rw [hass]
    exact List.append_nil _
  have honly : ∀ g, g ∈ (groupsFound (a.items ++ a.assumed_items)).map (·.1) →
      g = "OBST" ∨ g = "NEUTRAL" := by
    intro g hg
    rcases (mem_groupSet _ g).mp hg with ⟨it, hit, hval⟩
    rw [hA] at hit
    rcases hgroups it hit with h | h
    · left
      rw [h] at hval
      exact hval.symm
    · right
      rw [h] at hval
      exact hval.symm
  have hO : "OBST" ∈ (groupsFound (a.items ++ a.assumed_items)).map (·.1) := by
    rcases hOBST with ⟨it, hit, hg⟩
    refine (mem_groupSet _ _).mpr ⟨it, ?_, ?_⟩
    · rw [hA]
      exact hit
    · rw [hg]
      rfl
  have hN : "NEUTRAL" ∈ (groupsFound (a.items ++ a.assumed_items)).map (·.1) := by
    rcases hNEUT with ⟨it, hit, hg⟩
    refine (mem_groupSet _ _).mpr ⟨it, ?_, ?_⟩
    · rw [hA]
      exact hit
    · rw [hg]
      rfl
  have hKH : "KH" ∉ (groupsFound (a.items ++ a.assumed_items)).map (·.1) := by
    intro h
    rcases honly _ h with h' | h' <;> exact absurd h' (by decide)
  have hPROT : "PROTEIN" ∉ (groupsFound (a.items ++ a.assumed_items)).map (·.1) := by
    intro h
    rcases honly _ h with h' | h' <;> exact absurd h' (by decide)
  have hMILCH : "MILCH" ∉ (groupsFound (a.items ++ a.assumed_items)).map (·.1) := by
    intro h
    rcases honly _ h with h' | h' <;> exact absurd h' (by decide)
  have hHUEL : "HUELSENFRUECHTE" ∉ (groupsFound (a.items ++ a.assumed_items)).map (·.1) := by
    intro h
    rcases honly _ h with h' | h' <;> exact absurd h' (by decide)
  have hFETT : "FETT" ∉ (groupsFound (a.items ++ a.assumed_items)).map (·.1) := by
    intro h
    rcases honly _ h with h' | h' <;> exact absurd h' (by decide)
  have hsubsP : subgroupsFound (a.items ++ a.assumed_items) "PROTEIN" = [] := by
    apply subgroupsFound_nil_of_none
    intro it hit
    rw [hA] at hit
    rcases hgroups it hit with h | h <;> rw [h] <;> decide
  have hr018 : r018Problems (a.items ++ a.assumed_items)
      (subgroupsFound (a.items ++ a.assumed_items)) = [] := by
    unfold r018Problems
    rw [hsubsP]
    rfl
  have hhu : (!a.unknown_items.isEmpty) = false := by
    rw [hunk]
    rfl
  have hha : (!a.assumed_items.isEmpty) = false := by
    rw [hass]
    rfl
  have hquest : (evaluate specEngine ont a).required_questions = [] := by
    rw [evaluate_questions_eq, hhu, hha]
    show unknownQuestions a false ++ assumedQuestions a false ++ ambiguousQuestions ont a ++
      fatQuestions (groupsFound (a.items ++ a.assumed_items)) ++ compoundQuestions ont a = []
    rw [show unknownQuestions a false = [] from rfl,
        show assumedQuestions a false = [] from rfl]
    rw [show ambiguousQuestions ont a = [] from by
      unfold ambiguousQuestions
      rw [hnoamb]
      rfl]
    rw [show compoundQuestions ont a = [] from by
      unfold compoundQuestions
      rw [hnocomp]]
    rw [show fatQuestions (groupsFound (a.items ++ a.assumed_items)) = [] from by
      unfold fatQuestions
      rw [if_neg (fun h => hFETT h.1)]]
    rfl
  constructor
  · -- smoothie case: all NEUTRAL subgroups safe
    intro hAllSafe
    have hsafe : ∀ s ∈ subgroupsFound (a.items ++ a.assumed_items) "NEUTRAL",
        s ∈ SMOOTHIE_SAFE_SUBGROUPS := by
      intro s hs
      rcases (mem_subgroupsFound _ _ _).mp hs with ⟨it, hit, hval, hsub⟩
      rw [hA] at hit
      have hgN : it.group = FoodGroup.NEUTRAL := by
        rcases hgroups it hit with h | h
        · rw [h] at hval
          exact absurd hval (by decide)
        · exact h
      rcases hAllSafe it hit hgN with ⟨s', hs', hsub'⟩
      rw [hsub] at hsub'
      rw [Option.some.inj hsub'.symm] at hs'
      exact hs'
    have hneSubs : subgroupsFound (a.items ++ a.assumed_items) "NEUTRAL" ≠ [] := by
      rcases hNEUT with ⟨it, hit, hgN⟩
      rcases hAllSafe it hit hgN with ⟨s, _, hsub⟩
      have hmem : s ∈ subgroupsFound (a.items ++ a.assumed_items) "NEUTRAL" :=
        (mem_subgroupsFound _ _ _).mpr ⟨it, by
          rw [hA]
          exact hit, by
          rw [hgN]
          rfl, hsub⟩
      exact List.ne_nil_of_mem hmem
    have hrun := runRules_smoothie_ok
      ((groupsFound (a.items ++ a.assumed_items)).map (·.1))
      (subgroupsFound (a.items ++ a.assumed_items))
      (groupsFound (a.items ++ a.assumed_items))
      hO hN hKH hPROT hMILCH hHUEL ⟨hneSubs, hsafe⟩
    have hprob : (evaluate specEngine ont a).problems =
        zuckerProblems (a.items ++ a.assumed_items) := by
      rw [evaluate_problems_eq, hhu, hha, hrun, hr018]
      simp
    refine ⟨?_, ?_, ?_⟩
    · rw [evaluate_verdict_eq, hprob, hquest, hhu]
      unfold determineVerdict
      rw [if_neg (by
        rintro ⟨p, hp, _, hcrit⟩
        rw [zucker_severity _ p hp] at hcrit
        exact absurd hcrit (by decide))]
      rw [if_neg (by
        rintro (h | h)
        · exact h rfl
        · exact absurd h (by decide))]
      rw [if_neg (by
        rintro ⟨p, hp, hw⟩
        rw [zucker_severity _ p hp] at hw
        exact absurd hw (by decide))]
    · rw [evaluate_okc_eq, hhu, hha, hrun]
    · intro p hp
      rw [hprob] at hp
      rw [zucker_rule_id _ p hp]
      decide
  · -- warning case: some NEUTRAL item carries a non-smoothie-safe subgroup
    rintro ⟨it0, hit0, hgN0, s0, hsub0, hnotsafe⟩
    have hs0mem : s0 ∈ subgroupsFound (a.items ++ a.assumed_items) "NEUTRAL" :=
      (mem_subgroupsFound _ _ _).mpr ⟨it0, by
        rw [hA]
        exact hit0, by
        rw [hgN0]
        rfl, hsub0⟩
    have hnsub : ¬ (subgroupsFound (a.items ++ a.assumed_items) "NEUTRAL" ≠ [] ∧
        ∀ s ∈ subgroupsFound (a.items ++ a.assumed_items) "NEUTRAL",
          s ∈ SMOOTHIE_SAFE_SUBGROUPS) := by
      rintro ⟨_, hall⟩
      exact hnotsafe (hall s0 hs0mem)
    have hrun := runRules_smoothie_warn
      ((groupsFound (a.items ++ a.assumed_items)).map (·.1))
      (subgroupsFound (a.items ++ a.assumed_items))
      (groupsFound (a.items ++ a.assumed_items))
      hO hN hKH hPROT hMILCH hHUEL hnsub
    have hprob : (evaluate specEngine ont a).problems =
        r013ProblemOf (groupsFound (a.items ++ a.assumed_items)) ::
          zuckerProblems (a.items ++ a.assumed_items) := by
      rw [evaluate_problems_eq, hhu, hha, hrun, hr018]
      simp
    refine ⟨?_, ?_, ?_⟩
    · rw [evaluate_verdict_eq, hprob, hquest, hhu]
      unfold determineVerdict
      rw [if_neg (by
        rintro ⟨p, hp, _, hcrit⟩
        rcases List.mem_cons.mp hp with rfl | hp
        · exact absurd (show Severity.WARNING = Severity.CRITICAL from hcrit) (by decide)
        · rw [zucker_severity _ p hp] at hcrit
          exact absurd hcrit (by decide))]
      rw [if_neg (by
        rintro (h | h)
        · exact h rfl
        · exact absurd h (by decide))]
      rw [if_pos ⟨r013ProblemOf _, List.mem_cons_self _ _, rfl⟩]
    · refine ⟨r013ProblemOf (groupsFound (a.items ++ a.assumed_items)), ?_, rfl, rfl, rfl⟩
      rw [hprob]
      exact List.mem_cons_self _ _
    · rw [evaluate_okc_eq, hhu, hha, hrun]

/-- Witness for C3 at the §8 scenarios: banana + spinach (smoothie, OK) and
apple + bell pepper (general rule, CONDITIONAL with the R013 warning). -/
theorem trennkost_c3_witness :
    ((evaluate specEngine specOntology (analysisOf "Smoothie" ["Banane", "Spinat"])).verdict =
        Verdict.OK ∧
     (evaluate specEngine specOntology (analysisOf "Smoothie" ["Banane", "Spinat"])).ok_combinations =
        [specR012.description]) ∧
    ((evaluate specEngine specOntology (analysisOf "Test" ["Apfel", "Paprika"])).verdict =
        Verdict.CONDITIONAL ∧
     ∃ p ∈ (evaluate specEngine specOntology (analysisOf "Test" ["Apfel", "Paprika"])).problems,
       p.rule_id = "R013" ∧ p.severity = Severity.WARNING ∧
       p.affected_groups = ["OBST", "NEUTRAL"]) := by
  constructor
  · have h := (trennkost_c3 specOntology (analysisOf "Smoothie" ["Banane", "Spinat"])
      (by decide) (by decide) (by decide) (by decide) (by decide) (by decide)
      (by decide)).1 (by decide)
    exact ⟨h.1, h.2.1⟩
  · have h := (trennkost_c3 specOntology (analysisOf "Test" ["Apfel", "Paprika"])
      (by decide) (by decide) (by decide) (by decide) (by decide) (by decide)
      (by decide)).2 (by decide)
    exact ⟨h.1, h.2.1⟩
